import Mathlib

/-!
# Verification of the hotel central air-conditioning scheduler core

Shallow embedding of the scheduling core in `src/ac_core/`
(`models.py`, `queues.py`, `timers.py`, `server.py`, `records.py`,
`scheduler.py`) of the repository CYJ-maker111/hotel.

Modelling conventions:
* Python floats are modelled as exact rationals (`ℚ`).  The source
  normalizes every temperature to three decimals through
  `Decimal(str(x)).quantize(0.001, ROUND_HALF_UP)` after each update and
  rounds every reported cost to two decimals, so all reachable numeric
  values are (sums of) small decimal fractions; the sub-picodegree float
  representation error can never cross a rounding midpoint on the traces
  evaluated below, hence the rational model agrees with the float
  computation on them.
* `decimal.ROUND_HALF_UP` is modelled by `roundHalfUp` (round half away
  from zero), the Python builtin `round` by `roundHalfEven` (banker's
  rounding).
* Python dicts keyed by room id are modelled as association lists whose
  order is insertion order; Python lists as `List Nat` of room ids.
* The SQLite-backed `DetailRecord` table is modelled as an in-memory
  list of rows with an autoincrement id counter; timestamps carry no
  information used by any claim and are modelled by the `ended` flag
  (an open record is one with `ended = false`).
* `Scheduler._time_slice_schedule` iterates over a Python `set` of the
  fan speeds present in the serving queue; the model iterates over the
  speeds in first-occurrence order of the serving queue (`dedup`). All
  properties proved about it are independent of that iteration order.
-/

namespace HotelAC

/- Core marks the `Rat` arithmetic primitives `[irreducible]`; restore
the default reducibility so that concrete executions of the model reduce
inside `decide`. -/
attribute [local semireducible] Rat.add Rat.sub Rat.mul Rat.inv Rat.ofScientific

/-- `decimal.ROUND_HALF_UP` (half away from zero) at `nd` decimal digits,
as used by `Server._normalize_temp`. -/
def roundHalfUp (nd : Nat) (x : ℚ) : ℚ :=
  let s : ℚ := (10 : ℚ) ^ nd
  if x < 0 then -((Int.floor (-x * s + 1/2) : ℚ) / s)
  else (Int.floor (x * s + 1/2) : ℚ) / s

/-- Python's builtin `round` (round half to even) at `nd` decimal digits. -/
def roundHalfEven (nd : Nat) (x : ℚ) : ℚ :=
  let s : ℚ := (10 : ℚ) ^ nd
  let y := x * s
  let f : ℤ := Int.floor y
  let r := y - (f : ℚ)
  let n : ℤ :=
    if r < 1/2 then f
    else if 1/2 < r then f + 1
    else if f % 2 = 0 then f else f + 1
  (n : ℚ) / s

/-- `Server._normalize_temp` with the default three decimal digits. -/
def norm3 (x : ℚ) : ℚ := roundHalfUp 3 x

/-- `ac_core.models.Mode`. -/
inductive Mode where
  | cool
  | heat
deriving DecidableEq, Repr

/-- `ac_core.models.FanSpeed`. -/
inductive FanSpeed where
  | low
  | medium
  | high
deriving DecidableEq, Repr

/-- `FanSpeed.value` (LOW=1, MEDIUM=2, HIGH=3). -/
def FanSpeed.val : FanSpeed → Nat
  | .low => 1
  | .medium => 2
  | .high => 3

/-- `ac_core.models.PowerState`. -/
inductive PowerState where
  | off
  | waiting
  | serving
  | paused
deriving DecidableEq, Repr

/-- `PowerState.value` (also `.name.lower()`), the lowercase string used
in scheduler results. -/
def stateStr : PowerState → String
  | .off => "off"
  | .waiting => "waiting"
  | .serving => "serving"
  | .paused => "paused"

/-- `ac_core.models.Room` (the dataclass, without the unused
`total_served_seconds`/`total_waiting_seconds` statistics fields). -/
structure Room where
  room_id : Nat
  initial_temp : ℚ
  current_temp : ℚ
  mode : Mode
  target_temp : ℚ
  fan_speed : FanSpeed
  state : PowerState
  cost : ℚ
deriving DecidableEq, Repr

/-- Per-room initial temperatures hard-coded in `RoomRepository.__init__`
(default `DEFAULT_TEMP = 25.0`). -/
def defaultInitTemp (i : Nat) : ℚ :=
  if i = 1 then 32 else if i = 2 then 28 else if i = 3 then 30
  else if i = 4 then 29 else if i = 5 then 35 else 25

/-- Rooms created by `RoomRepository.__init__` for ids `1..n` with the
dataclass defaults (mode COOL, target 25.0, fan MEDIUM, state OFF). -/
def mkRooms (n : Nat) : List Room :=
  (List.range n).map fun k =>
    { room_id := k + 1
      initial_temp := defaultInitTemp (k + 1)
      current_temp := defaultInitTemp (k + 1)
      mode := .cool
      target_temp := 25
      fan_speed := .medium
      state := .off
      cost := 0 }

/-! ### Association-list helpers (Python dict semantics) -/

/-- Dict read with default (`dict.get(k, d)`). -/
def assocGet? (l : List (Nat × α)) (k : Nat) : Option α :=
  (l.find? fun p => p.1 = k).map (·.2)

/-- Dict write (`d[k] = v`): overwrite in place if present, else append. -/
def assocSet (l : List (Nat × α)) (k : Nat) (v : α) : List (Nat × α) :=
  if (l.find? fun p => p.1 = k).isSome then
    l.map fun p => if p.1 = k then (k, v) else p
  else l ++ [(k, v)]

/-- Dict delete (`d.pop(k, None)` / `del d[k]`). -/
def assocRemove (l : List (Nat × α)) (k : Nat) : List (Nat × α) :=
  l.filter fun p => ¬ p.1 = k

/-- Timer read: `get_service_time` / `get_wait_time` default to `0`. -/
def timerGet (l : List (Nat × Nat)) (k : Nat) : Nat := (assocGet? l k).getD 0

/-- `ServiceTimer.tick` / `WaitTimer.tick`: add `d` to every entry. -/
def timerTickAll (l : List (Nat × Nat)) (d : Nat) : List (Nat × Nat) :=
  l.map fun p => (p.1, p.2 + d)

/-! ### Stable sorting (Python `list.sort(key=...)`) and `max`/`min` -/

/-- Non-strict lexicographic order on sort keys (pairs of integers). -/
def leLex (a b : ℤ × ℤ) : Prop := a.1 < b.1 ∨ (a.1 = b.1 ∧ a.2 ≤ b.2)

/-- Strict lexicographic order on sort keys. -/
def ltLex (a b : ℤ × ℤ) : Prop := a.1 < b.1 ∨ (a.1 = b.1 ∧ a.2 < b.2)

instance (a b : ℤ × ℤ) : Decidable (leLex a b) := by unfold leLex; infer_instance
instance (a b : ℤ × ℤ) : Decidable (ltLex a b) := by unfold ltLex; infer_instance

/-- Insert `x` after all already-placed elements of `l` whose key is `≤`
its key (the insertion step of a stable sort). -/
def insertLe (key : Nat → ℤ × ℤ) (x : Nat) : List Nat → List Nat
  | [] => [x]
  | y :: ys => if leLex (key y) (key x) then y :: insertLe key x ys else x :: y :: ys

/-- Stable ascending sort by `key`, modelling Python `list.sort(key=...)`
(equal keys keep their original relative order). -/
def sortByKey (key : Nat → ℤ × ℤ) (l : List Nat) : List Nat :=
  l.foldl (fun acc x => insertLe key x acc) []

/-- Python `max(l, key=...)`: first element with maximal key (later
elements replace the current best only on a strictly greater key). -/
def pyMaxGo (key : Nat → ℤ × ℤ) (best : Nat) : List Nat → Nat
  | [] => best
  | y :: ys => pyMaxGo key (if ltLex (key best) (key y) then y else best) ys

/-- Python `max(l, key=...)` (`none` on the empty list, where Python raises). -/
def pyMax (key : Nat → ℤ × ℤ) : List Nat → Option Nat
  | [] => none
  | x :: xs => some (pyMaxGo key x xs)

/-- Python `min(l, key=...)`: first element with minimal key. -/
def pyMinGo (key : Nat → ℤ × ℤ) (best : Nat) : List Nat → Nat
  | [] => best
  | y :: ys => pyMinGo key (if ltLex (key y) (key best) then y else best) ys

/-- Python `min(l, key=...)` (`none` on the empty list, where Python raises). -/
def pyMin (key : Nat → ℤ × ℤ) : List Nat → Option Nat
  | [] => none
  | x :: xs => some (pyMinGo key x xs)

/-! ### Detail-record journal (`ac_core.records.DetailRecord`) -/

/-- One row of the `detail_records` table.  `ended` models whether
`end_time` is non-null (an open record has `ended = false`); the actual
timestamp strings carry no information used here. -/
structure JRecord where
  recId : Nat
  room_id : Nat
  mode : Mode
  target_temp : ℚ
  fan_speed : FanSpeed
  fee_rate : ℚ
  cost : ℚ
  operation_type : String
  ended : Bool
deriving DecidableEq, Repr

/-- The journal: the rows plus the SQLite autoincrement counter
(ids start at 1). -/
structure Journal where
  records : List JRecord
  nextId : Nat
deriving DecidableEq, Repr

/-- `DetailRecord.create_record`: insert a row with `cost = 0` and open
`end_time`; returns the new id. -/
def Journal.create (j : Journal) (room_id : Nat) (mode : Mode) (target : ℚ)
    (fan : FanSpeed) (fee : ℚ) (op : String) : Journal × Nat :=
  ({ records := j.records ++
      [{ recId := j.nextId, room_id := room_id, mode := mode, target_temp := target
         fan_speed := fan, fee_rate := fee, cost := 0, operation_type := op
         ended := false }]
     nextId := j.nextId + 1 }, j.nextId)

/-- `DetailRecord.update_on_service`: set `cost`, optionally set `end_time`. -/
def Journal.updateOnService (j : Journal) (recId : Nat) (cost : ℚ)
    (setEnd : Bool) : Journal :=
  { j with records := j.records.map fun r =>
      if r.recId = recId then { r with cost := cost, ended := r.ended || setEnd } else r }

/-- `DetailRecord.update_fee_rate`. -/
def Journal.updateFeeRate (j : Journal) (recId : Nat) (fee : ℚ)
    (fan : FanSpeed) : Journal :=
  { j with records := j.records.map fun r =>
      if r.recId = recId then { r with fee_rate := fee, fan_speed := fan } else r }

/-- `DetailRecord.get_record`. -/
def Journal.getRecord (j : Journal) (recId : Nat) : Option JRecord :=
  j.records.find? fun r => r.recId = recId

/-- `DetailRecord.get_room_total`: `round(SUM(cost), 2)` over the room's rows. -/
def Journal.roomTotal (j : Journal) (room_id : Nat) : ℚ :=
  roundHalfEven 2 (((j.records.filter fun r => r.room_id = room_id).map (·.cost)).foldl (· + ·) 0)

/-! ### Scheduler state (`ac_core.scheduler.Scheduler` + `HotelACSystem`) -/

/-- The whole mutable state of `Scheduler` (rooms, the two queues with
their capacities, the two timers, the open-record map, the minute
counter and minute-start temperatures, and the journal).
`waitingCap = -1` is the unbounded sentinel of `WaitingQueue`. -/
structure Sched where
  rooms : List Room
  servedQ : List Nat
  servedCap : Nat
  waitingQ : List Nat
  waitingCap : ℤ
  serviceTimer : List (Nat × Nat)
  waitTimer : List (Nat × Nat)
  timeSlice : Nat
  currentRecordIds : List (Nat × Nat)
  accumulatedSeconds : Nat
  minuteStartTemps : List (Nat × ℚ)
  journal : Journal
deriving DecidableEq, Repr

/-- Placeholder room returned by `getRoom` when the id is absent
(`RoomRepository.get` raises `KeyError` there: a programmer error that
no verified execution reaches). -/
def defaultRoom : Room :=
  { room_id := 0, initial_temp := 25, current_temp := 25, mode := .cool
    target_temp := 25, fan_speed := .medium, state := .off, cost := 0 }

/-- `self.rooms.get(rid)`. -/
def getRoom (s : Sched) (rid : Nat) : Room :=
  (s.rooms.find? fun r => r.room_id = rid).getD defaultRoom

/-- Mutate the room with id `rid` in place. -/
def setRoom (s : Sched) (rid : Nat) (f : Room → Room) : Sched :=
  { s with rooms := s.rooms.map fun r => if r.room_id = rid then f r else r }

/-- `room.current_temp = t`. -/
def setRoomTemp (s : Sched) (rid : Nat) (t : ℚ) : Sched :=
  setRoom s rid fun r => { r with current_temp := t }

/-- `room.state = st`. -/
def setRoomState (s : Sched) (rid : Nat) (st : PowerState) : Sched :=
  setRoom s rid fun r => { r with state := st }

/-- Fan-speed value of a room (`rooms.get(rid).fan_speed.value`). -/
def speedVal (s : Sched) (rid : Nat) : Nat := (getRoom s rid).fan_speed.val

/-- Sort key of the serving queue set in `Scheduler.__init__`:
`(-fan_speed.value, -service_time)`. -/
def servedKey (s : Sched) (rid : Nat) : ℤ × ℤ :=
  (-(speedVal s rid : ℤ), -(timerGet s.serviceTimer rid : ℤ))

/-- Sort key of the waiting queue set in `Scheduler.__init__`:
`(-fan_speed.value, -wait_time)`. -/
def waitingKey (s : Sched) (rid : Nat) : ℤ × ℤ :=
  (-(speedVal s rid : ℤ), -(timerGet s.waitTimer rid : ℤ))

/-- `ServedQueue._sort_rooms` (re-sort against current scheduler state). -/
def sortServed (s : Sched) : Sched :=
  { s with servedQ := sortByKey (servedKey s) s.servedQ }

/-- `WaitingQueue._sort_rooms`. -/
def sortWaiting (s : Sched) : Sched :=
  { s with waitingQ := sortByKey (waitingKey s) s.waitingQ }

/-- `ServedQueue.push`: no-op if present or full, else append and sort. -/
def servedPush (s : Sched) (rid : Nat) : Sched :=
  if rid ∉ s.servedQ ∧ s.servedQ.length < s.servedCap then
    sortServed { s with servedQ := s.servedQ ++ [rid] }
  else s

/-- `ServedQueue.pop`: remove if present, then re-sort. -/
def servedPop (s : Sched) (rid : Nat) : Sched :=
  if rid ∈ s.servedQ then sortServed { s with servedQ := s.servedQ.erase rid } else s

/-- `WaitingQueue.push`: no-op if present or full (capacity `-1` means
unbounded), else append and sort. -/
def waitingPush (s : Sched) (rid : Nat) : Sched :=
  if rid ∉ s.waitingQ ∧ (s.waitingCap = -1 ∨ (s.waitingQ.length : ℤ) < s.waitingCap) then
    sortWaiting { s with waitingQ := s.waitingQ ++ [rid] }
  else s

/-- `WaitingQueue.pop`: remove if present (no re-sort in the source). -/
def waitingPop (s : Sched) (rid : Nat) : Sched :=
  if rid ∈ s.waitingQ then { s with waitingQ := s.waitingQ.erase rid } else s

/-- `WaitingQueue.promote`: move to the front, then re-sort. -/
def waitingPromote (s : Sched) (rid : Nat) : Sched :=
  if rid ∈ s.waitingQ then
    sortWaiting { s with waitingQ := rid :: s.waitingQ.erase rid }
  else s

/-- `WaitingQueue.get_position`: 1-based index, `-1` if absent. -/
def getPosition (q : List Nat) (rid : Nat) : ℤ :=
  if rid ∈ q then (q.indexOf rid : ℤ) + 1 else -1

/-! ### `Server` (ac_core/server.py) helpers -/

/-- `Server._calc_fee_rate`: uniform rate of 1 yuan per degree. -/
def calcFeeRate (_fan : FanSpeed) : ℚ := 1

/-- `Server.set_target`: normalize and store the supplied current
temperature, store the mode, force target 25.0 and MEDIUM fan, set state
SERVING; returns `(mode, target_temp, fee_rate)`. -/
def setTarget (s : Sched) (rid : Nat) (currentTemp : ℚ) (mode : Mode) :
    Sched × Mode × ℚ × ℚ :=
  let s := setRoom s rid fun r =>
    { r with current_temp := norm3 currentTemp, mode := mode
             target_temp := 25, fan_speed := .medium, state := .serving }
  (s, mode, 25, calcFeeRate .medium)

/-- `Server.update_speed`. -/
def updateSpeed (s : Sched) (rid : Nat) (newSpeed : FanSpeed) : Sched × ℚ :=
  (setRoom s rid fun r => { r with fan_speed := newSpeed }, calcFeeRate newSpeed)

/-- `Server.update_target_temperature`. -/
def updateTargetTemperature (s : Sched) (rid : Nat) (t : ℚ) : Sched :=
  setRoom s rid fun r => { r with target_temp := norm3 t }

/-! ### Scheduler helpers used from the engine -/

/-- `Scheduler._fill_served_queue_from_waiting`: when the serving queue
has a slot and the waiting queue is non-empty, promote the head of the
waiting queue (one room per call), reset its service timer, drop its
wait timer and open a QUEUE_FILL record. -/
def fillServedFromWaiting (s : Sched) : Sched :=
  if s.servedCap ≤ s.servedQ.length then s
  else
    match s.waitingQ with
    | [] => s
    | selected :: _ =>
      let s := waitingPop s selected
      let s := servedPush s selected
      let s := setRoomState s selected .serving
      let s := { s with serviceTimer := assocSet s.serviceTimer selected 0 }
      let s := { s with waitTimer := assocRemove s.waitTimer selected }
      let room := getRoom s selected
      let (j, recId) := s.journal.create selected room.mode room.target_temp
        room.fan_speed (calcFeeRate room.fan_speed) "QUEUE_FILL"
      { s with journal := j, currentRecordIds := assocSet s.currentRecordIds selected recId }

/-- `Scheduler._on_room_state_changed`.  Every call site in
`Server.update_temperature` stores the new state on the room before
calling it, so `old_state` always already equals `new_state` and the
serving-departure branch is dead; it is translated in full anyway. -/
def onRoomStateChanged (s : Sched) (rid : Nat) (newState : PowerState) : Sched :=
  let oldState := (getRoom s rid).state
  let changed := oldState = .serving ∧ (newState = .paused ∨ newState = .off)
  let s :=
    if oldState = .serving ∧ (newState = .paused ∨ newState = .off) then
      let s :=
        if rid ∈ s.servedQ then
          let s := servedPop s rid
          { s with serviceTimer := assocRemove s.serviceTimer rid }
        else s
      let s :=
        if newState = .paused ∧ rid ∈ s.waitingQ then waitingPop s rid else s
      match assocGet? s.currentRecordIds rid with
      | none => s
      | some recId =>
        let s :=
          match s.journal.getRecord recId with
          | some rec => { s with journal := s.journal.updateOnService recId rec.cost true }
          | none => s
        { s with currentRecordIds := assocRemove s.currentRecordIds rid }
    else s
  let s := setRoomState s rid newState
  if changed then fillServedFromWaiting (sortServed s) else s

/-! ### `Server.update_temperature` -/

/-- Snap the room to its target and move it to PAUSED, notifying the
scheduler — the common exit of the serving-mode loops
(lines 85-93 / 101-110 and the heating twins in server.py). -/
def pauseAtTarget (s : Sched) (rid : Nat) : Sched :=
  let s := setRoomTemp s rid (norm3 (getRoom s rid).target_temp)
  let s := setRoomState s rid .paused
  onRoomStateChanged s rid .paused

/-- Case-3 drift loop for cooling (server.py lines 124-132): the room
was serving but already below target; drift up at 0.5 °C/min until
target is reached, for up to `fuel` (= the full `delta_seconds`) steps. -/
def coolDriftLoop (rid : Nat) (rate tol : ℚ) : Nat → Sched → Sched
  | 0, s => s
  | n + 1, s =>
    let room := getRoom s rid
    let s := setRoomTemp s rid (norm3 (room.current_temp + rate))
    let room := getRoom s rid
    if |room.current_temp - room.target_temp| ≤ tol ∨ room.target_temp ≤ room.current_temp then
      setRoomTemp s rid (norm3 room.target_temp)
    else coolDriftLoop rid rate tol n s

/-- Case-3 drift loop for heating (server.py lines 176-184). -/
def heatDriftLoop (rid : Nat) (rate tol : ℚ) : Nat → Sched → Sched
  | 0, s => s
  | n + 1, s =>
    let room := getRoom s rid
    let s := setRoomTemp s rid (norm3 (room.current_temp - rate))
    let room := getRoom s rid
    if |room.target_temp - room.current_temp| ≤ tol ∨ room.current_temp ≤ room.target_temp then
      setRoomTemp s rid (norm3 room.target_temp)
    else heatDriftLoop rid rate tol n s

/-- The serving loop of `update_temperature` in cooling mode (server.py
lines 81-133).  Returns the state, the accumulated `temp_change`, and
whether the case-3 `return 0.0` was taken. -/
def servingCoolLoop (rid : Nat) (rate tol : ℚ) (delta : Nat) :
    Nat → Sched → ℚ → Sched × ℚ × Bool
  | 0, s, tc => (s, tc, false)
  | n + 1, s, tc =>
    let room := getRoom s rid
    if |room.current_temp - room.target_temp| ≤ tol then
      (pauseAtTarget s rid, tc, false)
    else if room.target_temp < room.current_temp then
      let s := setRoomTemp s rid (norm3 (room.current_temp - rate))
      let tc := tc + rate
      let room := getRoom s rid
      if |room.current_temp - room.target_temp| ≤ tol ∨
          room.current_temp ≤ room.target_temp then
        (pauseAtTarget s rid, tc, false)
      else servingCoolLoop rid rate tol delta n s tc
    else
      -- case 3: already past target; pause without billing, then drift
      let s := setRoomState s rid .paused
      let s := onRoomStateChanged s rid .paused
      (coolDriftLoop rid ((0.5 : ℚ) / 60) tol delta s, tc, true)

/-- The serving loop of `update_temperature` in heating mode (server.py
lines 134-185). -/
def servingHeatLoop (rid : Nat) (rate tol : ℚ) (delta : Nat) :
    Nat → Sched → ℚ → Sched × ℚ × Bool
  | 0, s, tc => (s, tc, false)
  | n + 1, s, tc =>
    let room := getRoom s rid
    if |room.target_temp - room.current_temp| ≤ tol then
      (pauseAtTarget s rid, tc, false)
    else if room.current_temp < room.target_temp then
      let s := setRoomTemp s rid (norm3 (room.current_temp + rate))
      let tc := tc + rate
      let room := getRoom s rid
      if |room.target_temp - room.current_temp| ≤ tol ∨
          room.target_temp ≤ room.current_temp then
        (pauseAtTarget s rid, tc, false)
      else servingHeatLoop rid rate tol delta n s tc
    else
      let s := setRoomState s rid .paused
      let s := onRoomStateChanged s rid .paused
      (heatDriftLoop rid ((0.5 : ℚ) / 60) tol delta s, tc, true)

/-- The threshold transition of the PAUSED branch of
`update_temperature` (server.py lines 214-225, identical in the heating
twin at lines 237-248): switch the room to WAITING, pop it from the
serving queue if present, and, when absent from the waiting queue, push
it there and reset its wait timer. -/
def pausedToWaiting (s : Sched) (rid : Nat) : Sched :=
  let s := setRoomState s rid .waiting
  let s := if rid ∈ s.servedQ then servedPop s rid else s
  if rid ∈ s.waitingQ then s
  else
    let s := waitingPush s rid
    { s with waitTimer := assocSet s.waitTimer rid 0 }

/-- The PAUSED loop of `update_temperature` in cooling mode (server.py
lines 201-225): drift up 0.5 °C/min; once `current ≥ target + 1 − 0.001`
switch to WAITING via `pausedToWaiting` and return. -/
def pausedCoolLoop (rid : Nat) (rate : ℚ) : Nat → Sched → Sched
  | 0, s => s
  | n + 1, s =>
    let room := getRoom s rid
    let s := setRoomTemp s rid (norm3 (room.current_temp + rate))
    let room := getRoom s rid
    if room.target_temp + 1 - 1/1000 ≤ room.current_temp then
      pausedToWaiting s rid
    else pausedCoolLoop rid rate n s

/-- The PAUSED loop of `update_temperature` in heating mode (server.py
lines 226-248). -/
def pausedHeatLoop (rid : Nat) (rate : ℚ) : Nat → Sched → Sched
  | 0, s => s
  | n + 1, s =>
    let room := getRoom s rid
    let s := setRoomTemp s rid (norm3 (room.current_temp - rate))
    let room := getRoom s rid
    if room.current_temp ≤ room.target_temp - 1 + 1/1000 then
      pausedToWaiting s rid
    else pausedHeatLoop rid rate n s

/-- The OFF loop of `update_temperature` (server.py lines 265-288):
drift back toward the initial temperature at 0.5 °C/min. -/
def offLoop (rid : Nat) (rate tol : ℚ) : Nat → Sched → Sched
  | 0, s => s
  | n + 1, s =>
    let room := getRoom s rid
    if |room.current_temp - room.initial_temp| ≤ tol then
      setRoomTemp s rid (norm3 room.initial_temp)
    else if room.current_temp < room.initial_temp then
      let s := setRoomTemp s rid (norm3 (room.current_temp + rate))
      let room := getRoom s rid
      if |room.current_temp - room.initial_temp| ≤ tol ∨
          room.initial_temp ≤ room.current_temp then
        setRoomTemp s rid (norm3 room.initial_temp)
      else offLoop rid rate tol n s
    else if room.initial_temp < room.current_temp then
      let s := setRoomTemp s rid (norm3 (room.current_temp - rate))
      let room := getRoom s rid
      if |room.current_temp - room.initial_temp| ≤ tol ∨
          room.current_temp ≤ room.initial_temp then
        setRoomTemp s rid (norm3 room.initial_temp)
      else offLoop rid rate tol n s
    else offLoop rid rate tol n s

/-- The trailing alignment of `update_temperature` (server.py lines
293-300), reached only on the serving-branch fall-through. -/
def finalAlign (s : Sched) (rid : Nat) : Sched :=
  let room := getRoom s rid
  if room.state = .serving ∨ room.state = .paused then
    if |room.current_temp - room.target_temp| < 5/1000 then
      setRoomTemp s rid (norm3 room.target_temp)
    else s
  else if room.state = .off then
    if |room.current_temp - room.initial_temp| < 5/1000 then
      setRoomTemp s rid (norm3 room.initial_temp)
    else s
  else s

/-- `Server.update_temperature(room_id, delta_seconds)`: updates the
room's temperature (and, through the scheduler callbacks, possibly the
queues), returning the new state and the billed cost for the interval. -/
def updateTemperature (s : Sched) (rid : Nat) (delta : Nat) : Sched × ℚ :=
  let s := setRoomTemp s rid (norm3 (getRoom s rid).current_temp)
  let room := getRoom s rid
  match room.state with
  | .serving =>
    let ratePerMin : ℚ :=
      if room.fan_speed = .high then 1
      else if room.fan_speed = .medium then 0.5
      else 1 / 3
    let rate := ratePerMin / 60
    let tol : ℚ := 5/1000
    match room.mode with
    | .cool =>
      let (s, tc, early) := servingCoolLoop rid rate tol delta delta s 0
      if early then (s, 0)
      else (finalAlign s rid, norm3 tc)
    | .heat =>
      let (s, tc, early) := servingHeatLoop rid rate tol delta delta s 0
      if early then (s, 0)
      else (finalAlign s rid, norm3 tc)
  | .paused =>
    let rate : ℚ := (0.5 : ℚ) / 60
    match room.mode with
    | .cool => (pausedCoolLoop rid rate delta s, 0)
    | .heat => (pausedHeatLoop rid rate delta s, 0)
  | .waiting => (s, 0)
  | .off => (offLoop rid ((0.5 : ℚ) / 60) (5/1000) delta s, 0)

/-! ### Time-slice scheduling (`Scheduler._time_slice_schedule`) -/

/-- The replacement body of `_time_slice_schedule` (scheduler.py lines
722-757): evict `victim` from the serving queue to the waiting queue
(evicting the lowest-priority waiting room to PAUSED first when the
waiting queue is full), reset the victim's wait timer, and admit
`selected` to the serving queue. -/
def rotateVictimIn (s : Sched) (victim selected : Nat) : Sched :=
  let s := servedPop s victim
  let s :=
    if ¬ s.waitingCap = -1 ∧ s.waitingCap ≤ (s.waitingQ.length : ℤ) ∧
        victim ∉ s.waitingQ then
      match pyMin (fun rid => ((speedVal s rid : ℤ), (timerGet s.waitTimer rid : ℤ)))
          s.waitingQ with
      | none => s
      | some lowest =>
        let s := waitingPop s lowest
        let s := setRoomState s lowest .paused
        { s with waitTimer := assocRemove s.waitTimer lowest }
    else s
  let s := if victim ∈ s.waitingQ then waitingPop s victim else s
  let s :=
    if s.waitingCap = -1 ∨ (s.waitingQ.length : ℤ) < s.waitingCap then
      waitingPush s victim
    else s
  let s := setRoomState s victim .waiting
  let s := { s with serviceTimer := assocRemove s.serviceTimer victim }
  let s := { s with waitTimer := assocSet s.waitTimer victim 0 }
  let s :=
    if (assocGet? s.waitTimer victim).isNone then
      { s with waitTimer := assocSet s.waitTimer victim 0 }
    else s
  let s := servedPush s selected
  let s := waitingPop s selected
  let s := setRoomState s selected .serving
  let s := { s with serviceTimer := assocSet s.serviceTimer selected 0 }
  { s with waitTimer := assocRemove s.waitTimer selected }

/-- Waiting-priority key of `_time_slice_schedule`:
`(wait_time >= time_slice, wait_time)` with `True > False`. -/
def tssWaitKey (s : Sched) (rid : Nat) : ℤ × ℤ :=
  ((if s.timeSlice ≤ timerGet s.waitTimer rid then 1 else 0 : ℤ),
   (timerGet s.waitTimer rid : ℤ))

/-- The `for speed in served_speeds` loop of `_time_slice_schedule`;
`break` after the first replacement. -/
def tssLoop (s : Sched) : List FanSpeed → Sched
  | [] => s
  | sp :: rest =>
    let served := s.servedQ.filter fun rid => (getRoom s rid).fan_speed = sp
    if served = [] then tssLoop s rest
    else
      let waiting := s.waitingQ.filter fun rid => (getRoom s rid).fan_speed = sp
      if waiting = [] then tssLoop s rest
      else
        match pyMax (tssWaitKey s) waiting with
        | none => tssLoop s rest   -- unreachable: `waiting` is non-empty
        | some selected =>
          if s.timeSlice ≤ timerGet s.waitTimer selected then
            match pyMax (fun rid => ((timerGet s.serviceTimer rid : ℤ), 0)) served with
            | none => tssLoop s rest   -- unreachable: `served` is non-empty
            | some victim => rotateVictimIn s victim selected
          else tssLoop s rest

/-- `Scheduler._time_slice_schedule`: rotate same-fan-speed rooms between
the serving and waiting queues, only when the serving queue is full and
the waiting queue non-empty, at most once per call. -/
def timeSliceSchedule (s : Sched) : Sched :=
  if s.waitingQ = [] ∨ s.servedQ.length < s.servedCap then s
  else tssLoop s ((s.servedQ.map fun rid => (getRoom s rid).fan_speed).dedup)

/-! ### One tick (`Scheduler._tick_one_second` / `Scheduler.tick`) -/

/-- Record every room's minute-start temperature (scheduler.py lines
443-446). -/
def captureMinuteTemps (s : Sched) : Sched :=
  (s.rooms.map (·.room_id)).foldl
    (fun s rid =>
      { s with minuteStartTemps :=
          assocSet s.minuteStartTemps rid (getRoom s rid).current_temp })
    s

/-- The per-room engine step of `_tick_one_second` (lines 452-472): run
the engine for one second; while the room is (still) SERVING, accumulate
the cost onto the room and onto its open journal record. -/
def engineStep (s : Sched) (rid : Nat) : Sched :=
  let (s, cost) := updateTemperature s rid 1
  if 0 < cost then
    if (getRoom s rid).state = .serving then
      let s := setRoom s rid fun r => { r with cost := r.cost + cost }
      match assocGet? s.currentRecordIds rid with
      | none => s
      | some recId =>
        match s.journal.getRecord recId with
        | none => s
        | some rec =>
          { s with journal := s.journal.updateOnService recId (rec.cost + cost) false }
    else s
  else s

/-- The minute-alignment step for one room (lines 480-523): round the
temperature to one decimal; for serving rooms adjust the accumulated
cost by the difference between the rounded and unrounded temperature
change since the minute began, and round costs to two decimals. -/
def minuteAlignRoom (s : Sched) (rid : Nat) : Sched :=
  let room := getRoom s rid
  let s :=
    if room.state = .serving ∧ (assocGet? s.minuteStartTemps rid).isSome then
      let startTemp := (assocGet? s.minuteStartTemps rid).getD 0
      let changeBefore := |room.current_temp - startTemp|
      let s := setRoomTemp s rid (roundHalfEven 1 room.current_temp)
      let room := getRoom s rid
      let changeAfter := |room.current_temp - startTemp|
      let adj := changeAfter - changeBefore
      let s := setRoom s rid fun r => { r with cost := roundHalfEven 2 (r.cost + adj) }
      match assocGet? s.currentRecordIds rid with
      | none => s
      | some recId =>
        match s.journal.getRecord recId with
        | none => s
        | some rec =>
          { s with journal :=
              s.journal.updateOnService recId (roundHalfEven 2 (rec.cost + adj)) false }
    else
      let s := setRoomTemp s rid (roundHalfEven 1 room.current_temp)
      setRoom s rid fun r => { r with cost := roundHalfEven 2 r.cost }
  { s with minuteStartTemps :=
      assocSet s.minuteStartTemps rid (getRoom s rid).current_temp }

/-- The serving-departure cleanup of `_tick_one_second` (lines 525-554)
for one room: if it was SERVING before the engine ran and is now PAUSED
or OFF, drop it from the serving queue and its service timer, make sure
a paused room is not in the waiting queue, and close its open record. -/
def stateCleanupOne (s : Sched) (p : Nat × PowerState) : Sched :=
  let rid := p.1
  let astate := (getRoom s rid).state
  if p.2 = .serving ∧ (astate = .paused ∨ astate = .off) then
    let s :=
      if rid ∈ s.servedQ then
        let s := servedPop s rid
        { s with serviceTimer := assocRemove s.serviceTimer rid }
      else s
    let s := if astate = .paused ∧ rid ∈ s.waitingQ then waitingPop s rid else s
    match assocGet? s.currentRecordIds rid with
    | none => s
    | some recId =>
      let s :=
        match s.journal.getRecord recId with
        | some rec => { s with journal := s.journal.updateOnService recId rec.cost true }
        | none => s
      { s with currentRecordIds := assocRemove s.currentRecordIds rid }
  else s

/-- `Scheduler._tick_one_second`. -/
def tickOneSecond (s : Sched) : Sched :=
  let s := { s with serviceTimer := timerTickAll s.serviceTimer 1 }
  let s := { s with waitTimer := timerTickAll s.waitTimer 1 }
  let s := sortServed s
  let s := if s.accumulatedSeconds = 0 then captureMinuteTemps s else s
  let beforeStates := s.rooms.map fun r => (r.room_id, r.state)
  let s : Sched := (s.rooms.map (·.room_id)).foldl engineStep s
  let s : Sched := { s with accumulatedSeconds := s.accumulatedSeconds + 1 }
  let s : Sched :=
    if 60 ≤ s.accumulatedSeconds then
      let s : Sched := { s with accumulatedSeconds := 0 }
      (s.rooms.map (·.room_id)).foldl minuteAlignRoom s
    else s
  let s := beforeStates.foldl stateCleanupOne s
  let s := fillServedFromWaiting s
  timeSliceSchedule s

/-- `delta` iterations of `_tick_one_second`. -/
def tickN (s : Sched) : Nat → Sched
  | 0 => s
  | n + 1 => tickN (tickOneSecond s) n

/-- `Scheduler.tick(delta_seconds)`: a non-positive delta is an
immediate return; otherwise run `_tick_one_second` `delta` times. -/
def tick (s : Sched) (delta : ℤ) : Sched :=
  if delta ≤ 0 then s else tickN s delta.toNat

/-! ### Public scheduler operations -/

/-- The JSON-shaped dictionaries the scheduler operations return,
flattened into one structure (absent keys are `none`/`false`). -/
structure OpResult where
  state : String := ""
  ok : Bool := false
  mode : Option Mode := none
  target_temp : Option ℚ := none
  current_fee : Option ℚ := none
  total_fee : Option ℚ := none
  list_number : Option ℤ := none
deriving DecidableEq, Repr

/-- The serving rooms with fan speed strictly below the requesting
room's (the `lower_speed_rooms` of `power_on`; `equal_speed_rooms` is
the empty list there, so `replaceable_rooms` coincides with this). -/
def lowerRooms (s : Sched) (rid : Nat) : List Nat :=
  s.servedQ.filter fun y => speedVal s y < speedVal s rid

/-- Victim selection of `power_on` (scheduler.py lines 102-109): if all
replaceable rooms share one fan speed, the one with the longest service
time; otherwise the one with the lowest fan speed. -/
def chooseVictim (s : Sched) (rid : Nat) : Option Nat :=
  let replaceable := lowerRooms s rid
  if ((replaceable.map (speedVal s)).dedup).length = 1 then
    pyMax (fun y => ((timerGet s.serviceTimer y : ℤ), 0)) replaceable
  else
    pyMin (fun y => ((speedVal s y : ℤ), 0)) replaceable

/-- The serving-admission block of `power_on` (scheduler.py lines 65-86,
repeated verbatim at lines 118-139 except for the operation tag): push
to the serving queue, apply `set_target`, reset the service timer, open
a journal record tagged `op`, and build the "serving" reply. -/
def admitServing (s : Sched) (rid : Nat) (currentTemp : ℚ) (mode : Mode)
    (op : String) : Sched × OpResult :=
  let s := servedPush s rid
  let (s, mode2, target, fee) := setTarget s rid currentTemp mode
  let s := { s with serviceTimer := assocSet s.serviceTimer rid 0 }
  let (j, recId) := s.journal.create rid mode2 target
    (getRoom s rid).fan_speed fee op
  let s := { s with journal := j
                    currentRecordIds := assocSet s.currentRecordIds rid recId }
  (s, { state := "serving", mode := some mode2, target_temp := some target
        current_fee := some 0, total_fee := some (s.journal.roomTotal rid) })

/-- The victim-demotion block of `power_on` (scheduler.py lines 111-116):
pop the victim from the serving queue, mark it WAITING, drop its service
timer, push it to the waiting queue and create its wait timer. -/
def demoteVictim (s : Sched) (victim : Nat) : Sched :=
  let s := servedPop s victim
  let s := setRoomState s victim .waiting
  let s := { s with serviceTimer := assocRemove s.serviceTimer victim }
  let s := waitingPush s victim
  { s with waitTimer := assocSet s.waitTimer victim 0 }

/-- `Scheduler.power_on(room_id, current_room_temp, mode)`. -/
def powerOn (s : Sched) (rid : Nat) (currentTemp : ℚ) (mode : Mode) :
    Sched × OpResult :=
  if s.servedQ.length < s.servedCap then
    -- a slot is free: admit to the serving queue
    admitServing s rid currentTemp mode "POWER_ON"
  else if ¬ s.servedQ = [] ∧ ¬ lowerRooms s rid = [] then
    -- priority preemption of a strictly lower-speed serving room
    match chooseVictim s rid with
    | none =>   -- unreachable: `lowerRooms` is non-empty
      (s, { state := "waiting" })
    | some victim =>
      admitServing (demoteVictim s victim) rid currentTemp mode "PRIORITY_REPLACE"
  else
    -- no preemption possible: go to the waiting queue
    let s := waitingPush s rid
    let s := { s with waitTimer := assocSet s.waitTimer rid 0 }
    let s := setRoom s rid fun r =>
      { r with state := .waiting, current_temp := currentTemp, mode := mode }
    (s, { state := "waiting" })

/-- `Scheduler._priority_schedule`: after a serving room's speed was
raised, only re-sort the serving queue and journal the adjustment — no
replacement is performed (per the function's own docstring). -/
def prioritySchedule (s : Sched) (rid : Nat) : Sched :=
  let s := sortServed s
  let room := getRoom s rid
  let (j, _) := s.journal.create rid room.mode room.target_temp room.fan_speed
    (calcFeeRate room.fan_speed) "SPEED_ADJUST_PRIORITY"
  { s with journal := j }

/-- `Scheduler._replace_served_with_waiting(victim, waiting_room)`
(scheduler.py lines 293-335). -/
def replaceServedWithWaiting (s : Sched) (victim waitingRoom : Nat) : Sched :=
  let s := servedPop s victim
  let s :=
    if ¬ s.waitingCap = -1 ∧ s.waitingCap ≤ (s.waitingQ.length : ℤ) ∧
        victim ∉ s.waitingQ then
      match pyMin (fun rid => ((speedVal s rid : ℤ), (timerGet s.waitTimer rid : ℤ)))
          s.waitingQ with
      | none => s
      | some lowest =>
        let s := waitingPop s lowest
        let s := setRoomState s lowest .paused
        { s with waitTimer := assocRemove s.waitTimer lowest }
    else s
  let s := if victim ∈ s.waitingQ then waitingPop s victim else s
  let s :=
    if s.waitingCap = -1 ∨ (s.waitingQ.length : ℤ) < s.waitingCap then
      waitingPush s victim
    else s
  let s := setRoomState s victim .waiting
  let s := { s with serviceTimer := assocRemove s.serviceTimer victim }
  let s :=
    if timerGet s.waitTimer victim = 0 then
      { s with waitTimer := assocSet s.waitTimer victim 0 }
    else s
  if s.servedQ.length < s.servedCap then
    let s := waitingPop s waitingRoom
    let s := servedPush s waitingRoom
    let s := setRoomState s waitingRoom .serving
    let s := { s with serviceTimer := assocSet s.serviceTimer waitingRoom 0 }
    { s with waitTimer := assocRemove s.waitTimer waitingRoom }
  else s

/-- `Scheduler._check_waiting_queue_after_speed_decrease` (scheduler.py
lines 260-291). -/
def checkWaitingAfterSpeedDecrease (s : Sched) (_rid : Nat) : Sched :=
  if s.servedCap ≤ s.servedQ.length ∧ ¬ s.waitingQ = [] then
    match pyMin (fun rid => ((speedVal s rid : ℤ), (timerGet s.serviceTimer rid : ℤ)))
        s.servedQ with
    | none => s
    | some lowestServed =>
      match pyMax (fun rid => ((timerGet s.waitTimer rid : ℤ), 0)) s.waitingQ with
      | none => s
      | some highestWaiting =>
        if s.timeSlice ≤ timerGet s.waitTimer highestWaiting then
          if speedVal s lowestServed < speedVal s highestWaiting then
            replaceServedWithWaiting s lowestServed highestWaiting
          else s
        else s
  else s

/-- Victim selection of the waiting-queue branch of `adjust_wind_speed`
(scheduler.py lines 211-222). -/
def chooseVictimAdjust (s : Sched) (newSpeed : FanSpeed) : Option Nat :=
  let lower := s.servedQ.filter fun y => speedVal s y < newSpeed.val
  if lower.length = 1 then lower.head?
  else if ((lower.map (speedVal s)).dedup).length = 1 then
    pyMax (fun y => ((timerGet s.serviceTimer y : ℤ), 0)) lower
  else
    pyMin (fun y => ((speedVal s y : ℤ), 0)) lower

/-- The close-and-reopen journal step of `adjust_wind_speed` for a
serving room whose speed actually changed (scheduler.py lines 167-189):
close the open record at its current cost and open a SPEED_CHANGE one. -/
def speedChangeRecord (s : Sched) (rid : Nat) (oldSpeed newSpeed : FanSpeed)
    (feeRate : ℚ) : Sched :=
  if ¬ oldSpeed = newSpeed then
    match assocGet? s.currentRecordIds rid with
    | none => s
    | some recId =>
      let s :=
        match s.journal.getRecord recId with
        | some rec =>
          { s with journal := s.journal.updateOnService recId rec.cost true }
        | none => s
      let room := getRoom s rid
      let (j, newId) := s.journal.create rid room.mode room.target_temp
        newSpeed feeRate "SPEED_CHANGE"
      { s with journal := j
               currentRecordIds := assocSet s.currentRecordIds rid newId }
  else s

/-- `Scheduler.adjust_wind_speed(room_id, new_speed)`. -/
def adjustWindSpeed (s : Sched) (rid : Nat) (newSpeed : FanSpeed) :
    Sched × OpResult :=
  let oldSpeed := (getRoom s rid).fan_speed
  let s := setRoom s rid fun r => { r with fan_speed := newSpeed }
  if rid ∈ s.servedQ then
    let s := sortServed s
    let (s, feeRate) := updateSpeed s rid newSpeed
    let s := speedChangeRecord s rid oldSpeed newSpeed feeRate
    let s :=
      if oldSpeed.val < newSpeed.val then prioritySchedule s rid
      else if newSpeed.val < oldSpeed.val then checkWaitingAfterSpeedDecrease s rid
      else s
    (s, { ok := true })
  else if rid ∈ s.waitingQ then
    let s :=
      if oldSpeed.val < newSpeed.val then
        let s := waitingPromote s rid
        { s with waitTimer := assocSet s.waitTimer rid 0 }
      else s
    let s :=
      if ¬ s.servedQ = [] then
        let lower := s.servedQ.filter fun y => speedVal s y < newSpeed.val
        if ¬ lower = [] then
          match chooseVictimAdjust s newSpeed with
          | none => s   -- unreachable: `lower` is non-empty
          | some victim =>
            let s := replaceServedWithWaiting s victim rid
            let (s, feeRate) := updateSpeed s rid newSpeed
            match assocGet? s.currentRecordIds rid with
            | none => s
            | some recId =>
              { s with journal := s.journal.updateFeeRate recId feeRate newSpeed }
        else s
      else s
    (s, { ok := true })
  else
    (s, { state := stateStr (getRoom s rid).state })

/-- `Scheduler.adjust_temperature(room_id, new_target_temp)`. -/
def adjustTemperature (s : Sched) (rid : Nat) (newTarget : ℚ) :
    Sched × OpResult :=
  if rid ∈ s.servedQ then
    let s := updateTargetTemperature s rid newTarget
    let room := getRoom s rid
    let (j, _) := s.journal.create rid room.mode newTarget room.fan_speed
      (calcFeeRate room.fan_speed) "TEMP_CHANGE"
    ({ s with journal := j }, { ok := true })
  else if rid ∈ s.waitingQ then
    let s := setRoom s rid fun r => { r with target_temp := newTarget }
    let room := getRoom s rid
    let (j, _) := s.journal.create rid room.mode newTarget room.fan_speed
      (calcFeeRate room.fan_speed) "TEMP_CHANGE"
    ({ s with journal := j }, { ok := true })
  else if (getRoom s rid).state = .paused then
    let s := setRoom s rid fun r => { r with target_temp := newTarget }
    let room := getRoom s rid
    let (j, _) := s.journal.create rid room.mode newTarget room.fan_speed
      (calcFeeRate room.fan_speed) "TEMP_CHANGE"
    ({ s with journal := j }, { ok := true })
  else
    (s, { state := stateStr (getRoom s rid).state })

/-- `Scheduler.power_off(room_id)`. -/
def powerOff (s : Sched) (rid : Nat) : Sched × OpResult :=
  let s :=
    if rid ∈ s.servedQ then
      let s := servedPop s rid
      { s with serviceTimer := assocRemove s.serviceTimer rid }
    else s
  let s :=
    if rid ∈ s.waitingQ then
      let s := waitingPop s rid
      { s with waitTimer := assocRemove s.waitTimer rid }
    else s
  let s := setRoomState s rid .off
  let s :=
    match assocGet? s.currentRecordIds rid with
    | none => s
    | some recId =>
      let s := { s with currentRecordIds := assocRemove s.currentRecordIds rid }
      let totals := s.journal.roomTotal rid
      { s with journal := s.journal.updateOnService recId totals true }
  let total := s.journal.roomTotal rid
  (s, { state := "off", current_fee := some total, total_fee := some total })

/-- `Scheduler.request_number_service_number(room_id)`: queue-position
query. -/
def requestNumberServiceNumber (s : Sched) (rid : Nat) : OpResult :=
  if rid ∈ s.waitingQ then
    { state := "wait", list_number := some (getPosition s.waitingQ rid + 1) }
  else
    { state := stateStr (getRoom s rid).state }

/-- `HotelACSystem.__init__`: fresh rooms, empty queues and timers, an
empty journal (ids from 1), zero accumulated seconds. -/
def mkSystem (roomCount servedCap : Nat) (waitingCap : ℤ) (timeSlice : Nat) :
    Sched :=
  { rooms := mkRooms roomCount
    servedQ := []
    servedCap := servedCap
    waitingQ := []
    waitingCap := waitingCap
    serviceTimer := []
    waitTimer := []
    timeSlice := timeSlice
    currentRecordIds := []
    accumulatedSeconds := 0
    minuteStartTemps := []
    journal := { records := [], nextId := 1 } }

/-! ### Concrete executions used by the claims -/

set_option maxRecDepth 4000000

/-- The single-room cool-down scenario of the spec's end-to-end test:
serving capacity 1, one room powered on at 30 °C cooling to the default
target 25 °C at medium fan. -/
def c3sys : Sched := (powerOn (mkSystem 1 1 2 120) 1 30 .cool).1

/-- The scheduler state reached from `c3sys` after `10 * j` ticks
(for `1 ≤ j ≤ 50 + 10`, while the room keeps serving): the temperature has
dropped 0.5 °C per full minute (stepping 0.008 °C per second, realigned
by the minute rounding) and 0.08 °C per remaining 10-second block, and
the accumulated cost mirrors the temperature drop.  Used as explicit
checkpoints so that each evaluation step stays small. -/
def c3q (j : Nat) : Sched :=
  { rooms := [{ room_id := 1, initial_temp := 32
                current_temp := 30 - (j / 6 : Nat) / 2 - (80/1000) * ((j % 6 : Nat) : ℚ)
                mode := .cool, target_temp := 25, fan_speed := .medium
                state := .serving
                cost := (j / 6 : Nat) / 2 + (80/1000) * ((j % 6 : Nat) : ℚ) }]
    servedQ := [1]
    servedCap := 1
    waitingQ := []
    waitingCap := 2
    serviceTimer := [(1, 10 * j)]
    waitTimer := []
    timeSlice := 120
    currentRecordIds := [(1, 1)]
    accumulatedSeconds := 10 * (j % 6)
    minuteStartTemps := [(1, 30 - (j / 6 : Nat) / 2)]
    journal := { records := [{ recId := 1, room_id := 1, mode := .cool
                               target_temp := 25, fan_speed := .medium
                               fee_rate := 1
                               cost := (j / 6 : Nat) / 2 + (80/1000) * ((j % 6 : Nat) : ℚ)
                               operation_type := "POWER_ON", ended := false }]
                 nextId := 2 } }

/-- Ticking splits: `tickN s (a + b)` runs `a` ticks and then `b`. -/
lemma tickN_add (s : Sched) (a b : Nat) :
    tickN s (a + b) = tickN (tickN s a) b := by
  induction a generalizing s with
  | zero => rw [Nat.zero_add]; rfl
  | succ n ih =>
    have : n + 1 + b = (n + b) + 1 := by omega
    rw [this]
    show tickN (tickOneSecond s) (n + b) = _
    rw [ih (tickOneSecond s)]
    rfl

/-- First checkpoint: ten ticks from `c3sys`. -/
lemma c3step0 : tickN c3sys 10 = c3q 1 := by decide

/-- Checkpoint step 1: ten further ticks. -/
lemma c3step1 : tickN (c3q 1) 10 = c3q 2 := by decide

/-- Checkpoint step 2: ten further ticks. -/
lemma c3step2 : tickN (c3q 2) 10 = c3q 3 := by decide

/-- Checkpoint step 3: ten further ticks. -/
lemma c3step3 : tickN (c3q 3) 10 = c3q 4 := by decide

/-- Checkpoint step 4: ten further ticks. -/
lemma c3step4 : tickN (c3q 4) 10 = c3q 5 := by decide

/-- Checkpoint step 5: ten further ticks. -/
lemma c3step5 : tickN (c3q 5) 10 = c3q 6 := by decide

/-- Checkpoint step 6: ten further ticks. -/
lemma c3step6 : tickN (c3q 6) 10 = c3q 7 := by decide

/-- Checkpoint step 7: ten further ticks. -/
lemma c3step7 : tickN (c3q 7) 10 = c3q 8 := by decide

/-- Checkpoint step 8: ten further ticks. -/
lemma c3step8 : tickN (c3q 8) 10 = c3q 9 := by decide

/-- Checkpoint step 9: ten further ticks. -/
lemma c3step9 : tickN (c3q 9) 10 = c3q 10 := by decide

/-- Checkpoint step 10: ten further ticks. -/
lemma c3step10 : tickN (c3q 10) 10 = c3q 11 := by decide

/-- Checkpoint step 11: ten further ticks. -/
lemma c3step11 : tickN (c3q 11) 10 = c3q 12 := by decide

/-- Checkpoint step 12: ten further ticks. -/
lemma c3step12 : tickN (c3q 12) 10 = c3q 13 := by decide

/-- Checkpoint step 13: ten further ticks. -/
lemma c3step13 : tickN (c3q 13) 10 = c3q 14 := by decide

/-- Checkpoint step 14: ten further ticks. -/
lemma c3step14 : tickN (c3q 14) 10 = c3q 15 := by decide

/-- Checkpoint step 15: ten further ticks. -/
lemma c3step15 : tickN (c3q 15) 10 = c3q 16 := by decide

/-- Checkpoint step 16: ten further ticks. -/
lemma c3step16 : tickN (c3q 16) 10 = c3q 17 := by decide

/-- Checkpoint step 17: ten further ticks. -/
lemma c3step17 : tickN (c3q 17) 10 = c3q 18 := by decide

/-- Checkpoint step 18: ten further ticks. -/
lemma c3step18 : tickN (c3q 18) 10 = c3q 19 := by decide

/-- Checkpoint step 19: ten further ticks. -/
lemma c3step19 : tickN (c3q 19) 10 = c3q 20 := by decide

/-- Checkpoint step 20: ten further ticks. -/
lemma c3step20 : tickN (c3q 20) 10 = c3q 21 := by decide

/-- Checkpoint step 21: ten further ticks. -/
lemma c3step21 : tickN (c3q 21) 10 = c3q 22 := by decide

/-- Checkpoint step 22: ten further ticks. -/
lemma c3step22 : tickN (c3q 22) 10 = c3q 23 := by decide

/-- Checkpoint step 23: ten further ticks. -/
lemma c3step23 : tickN (c3q 23) 10 = c3q 24 := by decide

/-- Checkpoint step 24: ten further ticks. -/
lemma c3step24 : tickN (c3q 24) 10 = c3q 25 := by decide

/-- Checkpoint step 25: ten further ticks. -/
lemma c3step25 : tickN (c3q 25) 10 = c3q 26 := by decide

/-- Checkpoint step 26: ten further ticks. -/
lemma c3step26 : tickN (c3q 26) 10 = c3q 27 := by decide

/-- Checkpoint step 27: ten further ticks. -/
lemma c3step27 : tickN (c3q 27) 10 = c3q 28 := by decide

/-- Checkpoint step 28: ten further ticks. -/
lemma c3step28 : tickN (c3q 28) 10 = c3q 29 := by decide

/-- Checkpoint step 29: ten further ticks. -/
lemma c3step29 : tickN (c3q 29) 10 = c3q 30 := by decide

/-- Checkpoint step 30: ten further ticks. -/
lemma c3step30 : tickN (c3q 30) 10 = c3q 31 := by decide

/-- Checkpoint step 31: ten further ticks. -/
lemma c3step31 : tickN (c3q 31) 10 = c3q 32 := by decide

/-- Checkpoint step 32: ten further ticks. -/
lemma c3step32 : tickN (c3q 32) 10 = c3q 33 := by decide

/-- Checkpoint step 33: ten further ticks. -/
lemma c3step33 : tickN (c3q 33) 10 = c3q 34 := by decide

/-- Checkpoint step 34: ten further ticks. -/
lemma c3step34 : tickN (c3q 34) 10 = c3q 35 := by decide

/-- Checkpoint step 35: ten further ticks. -/
lemma c3step35 : tickN (c3q 35) 10 = c3q 36 := by decide

/-- Checkpoint step 36: ten further ticks. -/
lemma c3step36 : tickN (c3q 36) 10 = c3q 37 := by decide

/-- Checkpoint step 37: ten further ticks. -/
lemma c3step37 : tickN (c3q 37) 10 = c3q 38 := by decide

/-- Checkpoint step 38: ten further ticks. -/
lemma c3step38 : tickN (c3q 38) 10 = c3q 39 := by decide

/-- Checkpoint step 39: ten further ticks. -/
lemma c3step39 : tickN (c3q 39) 10 = c3q 40 := by decide

/-- Checkpoint step 40: ten further ticks. -/
lemma c3step40 : tickN (c3q 40) 10 = c3q 41 := by decide

/-- Checkpoint step 41: ten further ticks. -/
lemma c3step41 : tickN (c3q 41) 10 = c3q 42 := by decide

/-- Checkpoint step 42: ten further ticks. -/
lemma c3step42 : tickN (c3q 42) 10 = c3q 43 := by decide

/-- Checkpoint step 43: ten further ticks. -/
lemma c3step43 : tickN (c3q 43) 10 = c3q 44 := by decide

/-- Checkpoint step 44: ten further ticks. -/
lemma c3step44 : tickN (c3q 44) 10 = c3q 45 := by decide

/-- Checkpoint step 45: ten further ticks. -/
lemma c3step45 : tickN (c3q 45) 10 = c3q 46 := by decide

/-- Checkpoint step 46: ten further ticks. -/
lemma c3step46 : tickN (c3q 46) 10 = c3q 47 := by decide

/-- Checkpoint step 47: ten further ticks. -/
lemma c3step47 : tickN (c3q 47) 10 = c3q 48 := by decide

/-- Checkpoint step 48: ten further ticks. -/
lemma c3step48 : tickN (c3q 48) 10 = c3q 49 := by decide

/-- Checkpoint step 49: ten further ticks. -/
lemma c3step49 : tickN (c3q 49) 10 = c3q 50 := by decide

/-- Checkpoint step 50: ten further ticks. -/
lemma c3step50 : tickN (c3q 50) 10 = c3q 51 := by decide

/-- Checkpoint step 51: ten further ticks. -/
lemma c3step51 : tickN (c3q 51) 10 = c3q 52 := by decide

/-- Checkpoint step 52: ten further ticks. -/
lemma c3step52 : tickN (c3q 52) 10 = c3q 53 := by decide

/-- Checkpoint step 53: ten further ticks. -/
lemma c3step53 : tickN (c3q 53) 10 = c3q 54 := by decide

/-- Checkpoint step 54: ten further ticks. -/
lemma c3step54 : tickN (c3q 54) 10 = c3q 55 := by decide

/-- Checkpoint step 55: ten further ticks. -/
lemma c3step55 : tickN (c3q 55) 10 = c3q 56 := by decide

/-- Checkpoint step 56: ten further ticks. -/
lemma c3step56 : tickN (c3q 56) 10 = c3q 57 := by decide

/-- Checkpoint step 57: ten further ticks. -/
lemma c3step57 : tickN (c3q 57) 10 = c3q 58 := by decide

/-- Checkpoint step 58: ten further ticks. -/
lemma c3step58 : tickN (c3q 58) 10 = c3q 59 := by decide

/-- Checkpoint step 59: ten further ticks. -/
lemma c3step59 : tickN (c3q 59) 10 = c3q 60 := by decide

/-- The cool-down state after 600 simulated seconds. -/
lemma c3chain600 : tickN c3sys 600 = c3q 60 := by
  calc tickN c3sys 600 = tickN (tickN c3sys 10) 590 := tickN_add c3sys 10 590
    _ = tickN (c3q 1) 590 := by rw [c3step0]
    _ = tickN (tickN (c3q 1) 10) 580 := tickN_add (c3q 1) 10 580
    _ = tickN (c3q 2) 580 := by rw [c3step1]
    _ = tickN (tickN (c3q 2) 10) 570 := tickN_add (c3q 2) 10 570
    _ = tickN (c3q 3) 570 := by rw [c3step2]
    _ = tickN (tickN (c3q 3) 10) 560 := tickN_add (c3q 3) 10 560
    _ = tickN (c3q 4) 560 := by rw [c3step3]
    _ = tickN (tickN (c3q 4) 10) 550 := tickN_add (c3q 4) 10 550
    _ = tickN (c3q 5) 550 := by rw [c3step4]
    _ = tickN (tickN (c3q 5) 10) 540 := tickN_add (c3q 5) 10 540
    _ = tickN (c3q 6) 540 := by rw [c3step5]
    _ = tickN (tickN (c3q 6) 10) 530 := tickN_add (c3q 6) 10 530
    _ = tickN (c3q 7) 530 := by rw [c3step6]
    _ = tickN (tickN (c3q 7) 10) 520 := tickN_add (c3q 7) 10 520
    _ = tickN (c3q 8) 520 := by rw [c3step7]
    _ = tickN (tickN (c3q 8) 10) 510 := tickN_add (c3q 8) 10 510
    _ = tickN (c3q 9) 510 := by rw [c3step8]
    _ = tickN (tickN (c3q 9) 10) 500 := tickN_add (c3q 9) 10 500
    _ = tickN (c3q 10) 500 := by rw [c3step9]
    _ = tickN (tickN (c3q 10) 10) 490 := tickN_add (c3q 10) 10 490
    _ = tickN (c3q 11) 490 := by rw [c3step10]
    _ = tickN (tickN (c3q 11) 10) 480 := tickN_add (c3q 11) 10 480
    _ = tickN (c3q 12) 480 := by rw [c3step11]
    _ = tickN (tickN (c3q 12) 10) 470 := tickN_add (c3q 12) 10 470
    _ = tickN (c3q 13) 470 := by rw [c3step12]
    _ = tickN (tickN (c3q 13) 10) 460 := tickN_add (c3q 13) 10 460
    _ = tickN (c3q 14) 460 := by rw [c3step13]
    _ = tickN (tickN (c3q 14) 10) 450 := tickN_add (c3q 14) 10 450
    _ = tickN (c3q 15) 450 := by rw [c3step14]
    _ = tickN (tickN (c3q 15) 10) 440 := tickN_add (c3q 15) 10 440
    _ = tickN (c3q 16) 440 := by rw [c3step15]
    _ = tickN (tickN (c3q 16) 10) 430 := tickN_add (c3q 16) 10 430
    _ = tickN (c3q 17) 430 := by rw [c3step16]
    _ = tickN (tickN (c3q 17) 10) 420 := tickN_add (c3q 17) 10 420
    _ = tickN (c3q 18) 420 := by rw [c3step17]
    _ = tickN (tickN (c3q 18) 10) 410 := tickN_add (c3q 18) 10 410
    _ = tickN (c3q 19) 410 := by rw [c3step18]
    _ = tickN (tickN (c3q 19) 10) 400 := tickN_add (c3q 19) 10 400
    _ = tickN (c3q 20) 400 := by rw [c3step19]
    _ = tickN (tickN (c3q 20) 10) 390 := tickN_add (c3q 20) 10 390
    _ = tickN (c3q 21) 390 := by rw [c3step20]
    _ = tickN (tickN (c3q 21) 10) 380 := tickN_add (c3q 21) 10 380
    _ = tickN (c3q 22) 380 := by rw [c3step21]
    _ = tickN (tickN (c3q 22) 10) 370 := tickN_add (c3q 22) 10 370
    _ = tickN (c3q 23) 370 := by rw [c3step22]
    _ = tickN (tickN (c3q 23) 10) 360 := tickN_add (c3q 23) 10 360
    _ = tickN (c3q 24) 360 := by rw [c3step23]
    _ = tickN (tickN (c3q 24) 10) 350 := tickN_add (c3q 24) 10 350
    _ = tickN (c3q 25) 350 := by rw [c3step24]
    _ = tickN (tickN (c3q 25) 10) 340 := tickN_add (c3q 25) 10 340
    _ = tickN (c3q 26) 340 := by rw [c3step25]
    _ = tickN (tickN (c3q 26) 10) 330 := tickN_add (c3q 26) 10 330
    _ = tickN (c3q 27) 330 := by rw [c3step26]
    _ = tickN (tickN (c3q 27) 10) 320 := tickN_add (c3q 27) 10 320
    _ = tickN (c3q 28) 320 := by rw [c3step27]
    _ = tickN (tickN (c3q 28) 10) 310 := tickN_add (c3q 28) 10 310
    _ = tickN (c3q 29) 310 := by rw [c3step28]
    _ = tickN (tickN (c3q 29) 10) 300 := tickN_add (c3q 29) 10 300
    _ = tickN (c3q 30) 300 := by rw [c3step29]
    _ = tickN (tickN (c3q 30) 10) 290 := tickN_add (c3q 30) 10 290
    _ = tickN (c3q 31) 290 := by rw [c3step30]
    _ = tickN (tickN (c3q 31) 10) 280 := tickN_add (c3q 31) 10 280
    _ = tickN (c3q 32) 280 := by rw [c3step31]
    _ = tickN (tickN (c3q 32) 10) 270 := tickN_add (c3q 32) 10 270
    _ = tickN (c3q 33) 270 := by rw [c3step32]
    _ = tickN (tickN (c3q 33) 10) 260 := tickN_add (c3q 33) 10 260
    _ = tickN (c3q 34) 260 := by rw [c3step33]
    _ = tickN (tickN (c3q 34) 10) 250 := tickN_add (c3q 34) 10 250
    _ = tickN (c3q 35) 250 := by rw [c3step34]
    _ = tickN (tickN (c3q 35) 10) 240 := tickN_add (c3q 35) 10 240
    _ = tickN (c3q 36) 240 := by rw [c3step35]
    _ = tickN (tickN (c3q 36) 10) 230 := tickN_add (c3q 36) 10 230
    _ = tickN (c3q 37) 230 := by rw [c3step36]
    _ = tickN (tickN (c3q 37) 10) 220 := tickN_add (c3q 37) 10 220
    _ = tickN (c3q 38) 220 := by rw [c3step37]
    _ = tickN (tickN (c3q 38) 10) 210 := tickN_add (c3q 38) 10 210
    _ = tickN (c3q 39) 210 := by rw [c3step38]
    _ = tickN (tickN (c3q 39) 10) 200 := tickN_add (c3q 39) 10 200
    _ = tickN (c3q 40) 200 := by rw [c3step39]
    _ = tickN (tickN (c3q 40) 10) 190 := tickN_add (c3q 40) 10 190
    _ = tickN (c3q 41) 190 := by rw [c3step40]
    _ = tickN (tickN (c3q 41) 10) 180 := tickN_add (c3q 41) 10 180
    _ = tickN (c3q 42) 180 := by rw [c3step41]
    _ = tickN (tickN (c3q 42) 10) 170 := tickN_add (c3q 42) 10 170
    _ = tickN (c3q 43) 170 := by rw [c3step42]
    _ = tickN (tickN (c3q 43) 10) 160 := tickN_add (c3q 43) 10 160
    _ = tickN (c3q 44) 160 := by rw [c3step43]
    _ = tickN (tickN (c3q 44) 10) 150 := tickN_add (c3q 44) 10 150
    _ = tickN (c3q 45) 150 := by rw [c3step44]
    _ = tickN (tickN (c3q 45) 10) 140 := tickN_add (c3q 45) 10 140
    _ = tickN (c3q 46) 140 := by rw [c3step45]
    _ = tickN (tickN (c3q 46) 10) 130 := tickN_add (c3q 46) 10 130
    _ = tickN (c3q 47) 130 := by rw [c3step46]
    _ = tickN (tickN (c3q 47) 10) 120 := tickN_add (c3q 47) 10 120
    _ = tickN (c3q 48) 120 := by rw [c3step47]
    _ = tickN (tickN (c3q 48) 10) 110 := tickN_add (c3q 48) 10 110
    _ = tickN (c3q 49) 110 := by rw [c3step48]
    _ = tickN (tickN (c3q 49) 10) 100 := tickN_add (c3q 49) 10 100
    _ = tickN (c3q 50) 100 := by rw [c3step49]
    _ = tickN (tickN (c3q 50) 10) 90 := tickN_add (c3q 50) 10 90
    _ = tickN (c3q 51) 90 := by rw [c3step50]
    _ = tickN (tickN (c3q 51) 10) 80 := tickN_add (c3q 51) 10 80
    _ = tickN (c3q 52) 80 := by rw [c3step51]
    _ = tickN (tickN (c3q 52) 10) 70 := tickN_add (c3q 52) 10 70
    _ = tickN (c3q 53) 70 := by rw [c3step52]
    _ = tickN (tickN (c3q 53) 10) 60 := tickN_add (c3q 53) 10 60
    _ = tickN (c3q 54) 60 := by rw [c3step53]
    _ = tickN (tickN (c3q 54) 10) 50 := tickN_add (c3q 54) 10 50
    _ = tickN (c3q 55) 50 := by rw [c3step54]
    _ = tickN (tickN (c3q 55) 10) 40 := tickN_add (c3q 55) 10 40
    _ = tickN (c3q 56) 40 := by rw [c3step55]
    _ = tickN (tickN (c3q 56) 10) 30 := tickN_add (c3q 56) 10 30
    _ = tickN (c3q 57) 30 := by rw [c3step56]
    _ = tickN (tickN (c3q 57) 10) 20 := tickN_add (c3q 57) 10 20
    _ = tickN (c3q 58) 20 := by rw [c3step57]
    _ = tickN (tickN (c3q 58) 10) 10 := tickN_add (c3q 58) 10 10
    _ = tickN (c3q 59) 10 := by rw [c3step58]
    _ = c3q 60 := c3step59

/-- The cool-down state after 601 simulated seconds, expressed from the
checkpoint at 600. -/
lemma c3chain601 : tickN c3sys 601 = tickN (c3q 60) 1 := by
  calc tickN c3sys 601 = tickN (tickN c3sys 600) 1 := tickN_add c3sys 600 1
    _ = tickN (c3q 60) 1 := by rw [c3chain600]

/-- Serving capacity 1, waiting capacity 1, three equal-speed rooms
powered on in turn: room 1 serves, room 2 waits, room 3 finds the
waiting queue full. -/
def c1sys : Sched :=
  (powerOn (powerOn (powerOn (mkSystem 3 1 1 120) 1 30 .cool).1 2 30 .cool).1
    3 30 .cool).1

/-- Two costed service segments for room 1: three seconds at medium,
a speed change to high, three seconds at high, then power-off. -/
def c4sys : Sched :=
  (powerOff (tickN (adjustWindSpeed (tickN c3sys 3) 1 .high).1 3) 1).1

/-- Room 1 powered on at 25.004 °C pauses on the first tick (snapping to
the 25 °C target); rooms 2 and 3 then fill the single serving slot and
the single waiting slot; room 1's target is lowered to 24 °C while
paused, so its next drift step crosses the `target + 1` re-request
threshold with the waiting queue full. -/
def c6base : Sched :=
  (adjustTemperature
    (powerOn (powerOn (tickN (powerOn (mkSystem 3 1 1 1000) 1 (25004/1000) .cool).1 1)
      2 28 .cool).1 3 30 .cool).1
    1 24).1

/-- `c6base` one tick later: room 1 crossed the threshold. -/
def c6sys : Sched := tickN c6base 1

/-- A speed change requested for room 1 while it is off. -/
def c7sys : Sched × OpResult := adjustWindSpeed (mkSystem 1 1 2 120) 1 .high

/-- Serving capacity 2 with rooms 1 and 2 both serving at medium fan. -/
def c8base : Sched :=
  (powerOn (powerOn (mkSystem 2 2 2 120) 1 30 .cool).1 2 30 .cool).1

/-- Room 1's fan raised to high while serving next to the lower-speed
room 2. -/
def c8sys : Sched := (adjustWindSpeed c8base 1 .high).1

/-- Capacity 1: room 1 serves, room 2 is the head (and only member) of
the waiting queue. -/
def c9sys : Sched :=
  (powerOn (powerOn (mkSystem 2 1 2 120) 1 30 .cool).1 2 30 .cool).1

/-- C1: `power_on` with the serving queue full, no lower-speed serving
room, and the waiting queue full sets the room's state to WAITING but
`WaitingQueue.push` silently drops it, so the room ends in neither
queue: the state/queue-membership correspondence is violated right after
a public scheduler operation. -/
theorem C1_power_on_full_waiting_breaks_invariant :
    (getRoom c1sys 3).state = .waiting ∧
    3 ∉ c1sys.waitingQ ∧ 3 ∉ c1sys.servedQ ∧
    c1sys.servedQ = [1] ∧ c1sys.waitingQ = [2] := by
  decide

/-- C3 (counterexample): in the single-room cool-down, after 600
simulated seconds the temperature is 25.0 and the accumulated cost is
5.00 as claimed, but the room is still SERVING, not paused — the minute
alignment of tick 600 rounds the temperature onto the target after the
engine has already run, and the serving→paused transition only fires on
the next tick. -/
theorem C3_counterexample_not_paused_at_600 :
    (getRoom (tickN c3sys 600) 1).current_temp = 25 ∧
    (getRoom (tickN c3sys 600) 1).cost = 5 ∧
    (getRoom (tickN c3sys 600) 1).state = .serving ∧
    ¬ (getRoom (tickN c3sys 600) 1).state = .paused := by
  rw [c3chain600]
  decide

/-- C3 (amended): after 600 s the room reads 25.0 °C with cost 5.00 but
is still serving; one tick later (601 s) it is paused, out of the
serving queue, with temperature and cost unchanged. -/
theorem C3_amended_cooldown_values_pause_at_601 :
    (getRoom (tickN c3sys 600) 1).current_temp = 25 ∧
    (getRoom (tickN c3sys 600) 1).cost = 5 ∧
    (getRoom (tickN c3sys 600) 1).state = .serving ∧
    (getRoom (tickN c3sys 601) 1).state = .paused ∧
    (getRoom (tickN c3sys 601) 1).current_temp = 25 ∧
    (getRoom (tickN c3sys 601) 1).cost = 5 ∧
    (tickN c3sys 601).servedQ = [] := by
  rw [c3chain601, c3chain600]
  decide

/-- C4: after `power_off` the room's in-memory accumulated cost is 0.075
but the journal rows for the room sum (rounded as `get_room_total` does)
to 0.10 — `power_off` writes the room's running total into the still-open
segment's `cost` column (0.08 = round2(0.024 + 0.051)), double-counting
the previously closed 0.024 segment.  The difference exceeds the claimed
±0.01. -/
theorem C4_power_off_journal_total_mismatch :
    (getRoom c4sys 1).cost = 75/1000 ∧
    c4sys.journal.roomTotal 1 = 10/100 ∧
    (c4sys.journal.records.map fun r => (r.room_id, r.cost)) =
      [(1, 24/1000), (1, 8/100), (1, 0)] ∧
    ¬ |c4sys.journal.roomTotal 1 - (getRoom c4sys 1).cost| ≤ 1/100 := by
  decide

/-- C6 (counterexample): a paused cooling room that crosses the
`target + 1` threshold while the waiting queue is full is switched to
WAITING, but `WaitingQueue.push` silently drops it, so it is *not*
placed back in the waiting queue: room 1 is left waiting and unqueued
while room 3 keeps the only waiting slot. -/
theorem C6_counterexample_full_waiting_queue :
    (getRoom c6base 1).state = .paused ∧
    (getRoom c6base 1).mode = .cool ∧
    (getRoom c6sys 1).state = .waiting ∧
    1 ∉ c6sys.waitingQ ∧ 1 ∉ c6sys.servedQ ∧
    c6sys.waitingQ = [3] := by
  decide

/-- C7 (counterexample): a speed change for an off room (in neither
queue) returns the room's state and writes nothing to the journal, but
it *does* mutate the room: the fan speed is updated before the queue
checks, changing from the default MEDIUM to HIGH. -/
theorem C7_counterexample_fan_speed_mutated :
    (getRoom c7sys.1 1).fan_speed = .high ∧
    (getRoom (mkSystem 1 1 2 120) 1).fan_speed = .medium ∧
    ¬ getRoom c7sys.1 1 = getRoom (mkSystem 1 1 2 120) 1 ∧
    c7sys.2.state = "off" ∧
    c7sys.1.journal.records = [] := by
  decide

/-- C8 (counterexample): raising a serving room's speed above a
lower-speed serving neighbour does *not* demote that neighbour: with the
serving queue full, room 2 (medium < high) stays in the serving queue in
state SERVING and the waiting queue stays empty —
`_priority_schedule` only re-sorts and journals the adjustment. -/
theorem C8_counterexample_no_preemption_on_speed_raise :
    c8base.servedQ.length = c8base.servedCap ∧
    (getRoom c8sys 2).fan_speed.val < FanSpeed.high.val ∧
    (getRoom c8sys 1).fan_speed = .high ∧
    2 ∈ c8sys.servedQ ∧
    (getRoom c8sys 2).state = .serving ∧
    c8sys.waitingQ = [] := by
  decide

/-- C9: the head of the waiting queue (room 2, 1-based position 1 per
`WaitingQueue.get_position`) is reported with `list_number` 2:
`request_number_service_number` adds 1 to the already 1-based position. -/
theorem C9_head_of_waiting_queue_numbered_two :
    c9sys.waitingQ = [2] ∧
    getPosition c9sys.waitingQ 2 = 1 ∧
    (requestNumberServiceNumber c9sys 2).state = "wait" ∧
    (requestNumberServiceNumber c9sys 2).list_number = some 2 := by
  decide

/-! ### C10: non-positive tick deltas -/

/-- C10: `tick` with a zero or negative number of seconds returns the
state unchanged — every component (rooms, queues, timers, counters,
open-record map, journal) is exactly the input state. -/
theorem C10_tick_nonpositive_noop (s : Sched) (d : ℤ) (h : d ≤ 0) :
    tick s d = s := by
  unfold tick
  rw [if_pos h]

/-- Witness for C10 at a concrete state and delta. -/
theorem C10_tick_nonpositive_noop_witness :
    (-5 : ℤ) ≤ 0 ∧ tick (mkSystem 3 1 2 120) (-5) = mkSystem 3 1 2 120 :=
  ⟨by decide, C10_tick_nonpositive_noop (mkSystem 3 1 2 120) (-5) (by decide)⟩

/-! ### Structural lemmas about the model's state updates -/

@[simp] lemma setRoom_servedQ (s : Sched) (rid : Nat) (f : Room → Room) :
    (setRoom s rid f).servedQ = s.servedQ := rfl

@[simp] lemma setRoom_waitingQ (s : Sched) (rid : Nat) (f : Room → Room) :
    (setRoom s rid f).waitingQ = s.waitingQ := rfl

@[simp] lemma setRoom_serviceTimer (s : Sched) (rid : Nat) (f : Room → Room) :
    (setRoom s rid f).serviceTimer = s.serviceTimer := rfl

@[simp] lemma setRoom_waitTimer (s : Sched) (rid : Nat) (f : Room → Room) :
    (setRoom s rid f).waitTimer = s.waitTimer := rfl

@[simp] lemma setRoom_journal (s : Sched) (rid : Nat) (f : Room → Room) :
    (setRoom s rid f).journal = s.journal := rfl

@[simp] lemma setRoom_currentRecordIds (s : Sched) (rid : Nat) (f : Room → Room) :
    (setRoom s rid f).currentRecordIds = s.currentRecordIds := rfl

@[simp] lemma setRoom_servedCap (s : Sched) (rid : Nat) (f : Room → Room) :
    (setRoom s rid f).servedCap = s.servedCap := rfl

@[simp] lemma setRoom_waitingCap (s : Sched) (rid : Nat) (f : Room → Room) :
    (setRoom s rid f).waitingCap = s.waitingCap := rfl

@[simp] lemma setRoom_timeSlice (s : Sched) (rid : Nat) (f : Room → Room) :
    (setRoom s rid f).timeSlice = s.timeSlice := rfl

@[simp] lemma sortServed_rooms (s : Sched) : (sortServed s).rooms = s.rooms := rfl

@[simp] lemma sortServed_waitingQ (s : Sched) : (sortServed s).waitingQ = s.waitingQ := rfl

@[simp] lemma sortServed_serviceTimer (s : Sched) :
    (sortServed s).serviceTimer = s.serviceTimer := rfl

@[simp] lemma sortServed_waitTimer (s : Sched) :
    (sortServed s).waitTimer = s.waitTimer := rfl

@[simp] lemma sortServed_journal (s : Sched) : (sortServed s).journal = s.journal := rfl

@[simp] lemma sortServed_currentRecordIds (s : Sched) :
    (sortServed s).currentRecordIds = s.currentRecordIds := rfl

@[simp] lemma sortServed_servedCap (s : Sched) : (sortServed s).servedCap = s.servedCap := rfl

@[simp] lemma sortServed_waitingCap (s : Sched) :
    (sortServed s).waitingCap = s.waitingCap := rfl

@[simp] lemma sortServed_timeSlice (s : Sched) : (sortServed s).timeSlice = s.timeSlice := rfl

@[simp] lemma sortWaiting_rooms (s : Sched) : (sortWaiting s).rooms = s.rooms := rfl

@[simp] lemma sortWaiting_servedQ (s : Sched) : (sortWaiting s).servedQ = s.servedQ := rfl

@[simp] lemma sortWaiting_serviceTimer (s : Sched) :
    (sortWaiting s).serviceTimer = s.serviceTimer := rfl

@[simp] lemma sortWaiting_waitTimer (s : Sched) :
    (sortWaiting s).waitTimer = s.waitTimer := rfl

@[simp] lemma sortWaiting_journal (s : Sched) : (sortWaiting s).journal = s.journal := rfl

@[simp] lemma sortWaiting_currentRecordIds (s : Sched) :
    (sortWaiting s).currentRecordIds = s.currentRecordIds := rfl

@[simp] lemma sortWaiting_servedCap (s : Sched) :
    (sortWaiting s).servedCap = s.servedCap := rfl

@[simp] lemma sortWaiting_waitingCap (s : Sched) :
    (sortWaiting s).waitingCap = s.waitingCap := rfl

@[simp] lemma sortWaiting_timeSlice (s : Sched) :
    (sortWaiting s).timeSlice = s.timeSlice := rfl

/-- Strict lexicographic comparison is transitive. -/
lemma ltLex_trans {a b c : ℤ × ℤ} (h1 : ltLex a b) (h2 : ltLex b c) : ltLex a c := by
  unfold ltLex at *; omega

/-- Strict lexicographic comparison is irreflexive. -/
lemma ltLex_irrefl (a : ℤ × ℤ) : ¬ ltLex a a := by unfold ltLex; omega

lemma ltLex_resolve {a b c : ℤ × ℤ} (h1 : ltLex a c) (h2 : ¬ ltLex b c) : ltLex a b := by
  unfold ltLex at *; omega

lemma ltLex_resolve2 {a b c : ℤ × ℤ} (h1 : ltLex c a) (h2 : ¬ ltLex c b) : ltLex b a := by
  unfold ltLex at *; omega

/-- Membership in a stable-sort insertion step. -/
lemma mem_insertLe (key : Nat → ℤ × ℤ) (x a : Nat) (l : List Nat) :
    a ∈ insertLe key x l ↔ a = x ∨ a ∈ l := by
  induction l with
  | nil => simp [insertLe]
  | cons y ys ih =>
    unfold insertLe
    split
    · simp only [List.mem_cons, ih]
      tauto
    · simp only [List.mem_cons]

lemma mem_sortByKey_aux (key : Nat → ℤ × ℤ) (l : List Nat) :
    ∀ (acc : List Nat) (a : Nat),
      (a ∈ l.foldl (fun acc x => insertLe key x acc) acc ↔ a ∈ acc ∨ a ∈ l) := by
  induction l with
  | nil => simp
  | cons y ys ih =>
    intro acc a
    simp only [List.foldl_cons, ih, mem_insertLe, List.mem_cons]
    tauto

/-- The stable sort is membership-preserving. -/
lemma mem_sortByKey (key : Nat → ℤ × ℤ) (l : List Nat) (a : Nat) :
    a ∈ sortByKey key l ↔ a ∈ l := by
  unfold sortByKey
  rw [mem_sortByKey_aux]
  simp

lemma length_insertLe (key : Nat → ℤ × ℤ) (x : Nat) (l : List Nat) :
    (insertLe key x l).length = l.length + 1 := by
  induction l with
  | nil => rfl
  | cons y ys ih =>
    unfold insertLe
    split
    · simp [ih]
    · simp

lemma length_sortByKey_aux (key : Nat → ℤ × ℤ) (l : List Nat) :
    ∀ acc : List Nat,
      (l.foldl (fun acc x => insertLe key x acc) acc).length = acc.length + l.length := by
  induction l with
  | nil => simp
  | cons y ys ih =>
    intro acc
    simp only [List.foldl_cons, ih, length_insertLe, List.length_cons]
    omega

/-- The stable sort is length-preserving. -/
lemma length_sortByKey (key : Nat → ℤ × ℤ) (l : List Nat) :
    (sortByKey key l).length = l.length := by
  unfold sortByKey
  rw [length_sortByKey_aux]
  simp

/-- `pyMaxGo` returns its seed or a list element. -/
lemma pyMaxGo_mem (key : Nat → ℤ × ℤ) (l : List Nat) :
    ∀ b : Nat, pyMaxGo key b l = b ∨ pyMaxGo key b l ∈ l := by
  induction l with
  | nil => exact fun b => Or.inl rfl
  | cons y ys ih =>
    intro b
    have hres : pyMaxGo key b (y :: ys) =
        pyMaxGo key (if ltLex (key b) (key y) then y else b) ys := rfl
    rw [hres]
    rcases ih (if ltLex (key b) (key y) then y else b) with h | h
    · rw [h]
      split
      · right; simp
      · left; rfl
    · right; simp [h]

/-- Neither the seed nor any list element has a strictly greater key
than the `pyMaxGo` result. -/
lemma pyMaxGo_ge (key : Nat → ℤ × ℤ) (l : List Nat) :
    ∀ b : Nat, ¬ ltLex (key (pyMaxGo key b l)) (key b) ∧
      ∀ y ∈ l, ¬ ltLex (key (pyMaxGo key b l)) (key y) := by
  induction l with
  | nil => exact fun b => ⟨ltLex_irrefl _, by simp⟩
  | cons y ys ih =>
    intro b
    by_cases hby : ltLex (key b) (key y)
    · have h := ih y
      have hres : pyMaxGo key b (y :: ys) = pyMaxGo key y ys := by
        show pyMaxGo key (if ltLex (key b) (key y) then y else b) ys = _
        rw [if_pos hby]
      rw [hres]
      refine ⟨fun hc => h.1 (ltLex_trans hc hby), fun z hz => ?_⟩
      rcases List.mem_cons.mp hz with rfl | hz2
      · exact h.1
      · exact h.2 z hz2
    · have h := ih b
      have hres : pyMaxGo key b (y :: ys) = pyMaxGo key b ys := by
        show pyMaxGo key (if ltLex (key b) (key y) then y else b) ys = _
        rw [if_neg hby]
      rw [hres]
      refine ⟨h.1, fun z hz => ?_⟩
      rcases List.mem_cons.mp hz with rfl | hz2
      · exact fun hc => h.1 (ltLex_resolve hc hby)
      · exact h.2 z hz2

/-- `pyMax` returns a member of the list. -/
lemma pyMax_mem (key : Nat → ℤ × ℤ) (l : List Nat) (v : Nat)
    (h : pyMax key l = some v) : v ∈ l := by
  cases l with
  | nil => cases h
  | cons x xs =>
    unfold pyMax at h
    injection h with h
    rcases pyMaxGo_mem key xs x with h2 | h2
    · rw [← h, h2]; simp
    · rw [← h]; simp [h2]

/-- No element of the list has a strictly greater key than `pyMax`'s
result. -/
lemma pyMax_ge (key : Nat → ℤ × ℤ) (l : List Nat) (v : Nat)
    (h : pyMax key l = some v) : ∀ y ∈ l, ¬ ltLex (key v) (key y) := by
  cases l with
  | nil => cases h
  | cons x xs =>
    unfold pyMax at h
    injection h with h
    intro y hy
    rcases List.mem_cons.mp hy with rfl | hy2
    · rw [← h]; exact (pyMaxGo_ge key xs y).1
    · rw [← h]; exact (pyMaxGo_ge key xs x).2 y hy2

/-- `pyMax` is defined exactly on non-empty lists. -/
lemma pyMax_isSome (key : Nat → ℤ × ℤ) (l : List Nat) (h : ¬ l = []) :
    (pyMax key l).isSome := by
  cases l with
  | nil => exact absurd rfl h
  | cons x xs => rfl

/-- `pyMinGo` returns its seed or a list element. -/
lemma pyMinGo_mem (key : Nat → ℤ × ℤ) (l : List Nat) :
    ∀ b : Nat, pyMinGo key b l = b ∨ pyMinGo key b l ∈ l := by
  induction l with
  | nil => exact fun b => Or.inl rfl
  | cons y ys ih =>
    intro b
    have hres : pyMinGo key b (y :: ys) =
        pyMinGo key (if ltLex (key y) (key b) then y else b) ys := rfl
    rw [hres]
    rcases ih (if ltLex (key y) (key b) then y else b) with h | h
    · rw [h]
      split
      · right; simp
      · left; rfl
    · right; simp [h]

/-- Neither the seed nor any list element has a strictly smaller key
than the `pyMinGo` result. -/
lemma pyMinGo_le (key : Nat → ℤ × ℤ) (l : List Nat) :
    ∀ b : Nat, ¬ ltLex (key b) (key (pyMinGo key b l)) ∧
      ∀ y ∈ l, ¬ ltLex (key y) (key (pyMinGo key b l)) := by
  induction l with
  | nil => exact fun b => ⟨ltLex_irrefl _, by simp⟩
  | cons y ys ih =>
    intro b
    by_cases hby : ltLex (key y) (key b)
    · have h := ih y
      have hres : pyMinGo key b (y :: ys) = pyMinGo key y ys := by
        show pyMinGo key (if ltLex (key y) (key b) then y else b) ys = _
        rw [if_pos hby]
      rw [hres]
      refine ⟨fun hc => h.1 (ltLex_trans hby hc), fun z hz => ?_⟩
      rcases List.mem_cons.mp hz with rfl | hz2
      · exact h.1
      · exact h.2 z hz2
    · have h := ih b
      have hres : pyMinGo key b (y :: ys) = pyMinGo key b ys := by
        show pyMinGo key (if ltLex (key y) (key b) then y else b) ys = _
        rw [if_neg hby]
      rw [hres]
      refine ⟨h.1, fun z hz => ?_⟩
      rcases List.mem_cons.mp hz with rfl | hz2
      · exact fun hc => h.1 (ltLex_resolve2 hc hby)
      · exact h.2 z hz2

/-- `pyMin` returns a member of the list. -/
lemma pyMin_mem (key : Nat → ℤ × ℤ) (l : List Nat) (v : Nat)
    (h : pyMin key l = some v) : v ∈ l := by
  cases l with
  | nil => cases h
  | cons x xs =>
    unfold pyMin at h
    injection h with h
    rcases pyMinGo_mem key xs x with h2 | h2
    · rw [← h, h2]; simp
    · rw [← h]; simp [h2]

/-- No element of the list has a strictly smaller key than `pyMin`'s
result. -/
lemma pyMin_le (key : Nat → ℤ × ℤ) (l : List Nat) (v : Nat)
    (h : pyMin key l = some v) : ∀ y ∈ l, ¬ ltLex (key y) (key v) := by
  cases l with
  | nil => cases h
  | cons x xs =>
    unfold pyMin at h
    injection h with h
    intro y hy
    rcases List.mem_cons.mp hy with rfl | hy2
    · rw [← h]; exact (pyMinGo_le key xs y).1
    · rw [← h]; exact (pyMinGo_le key xs x).2 y hy2

/-- `pyMin` is defined exactly on non-empty lists. -/
lemma pyMin_isSome (key : Nat → ℤ × ℤ) (l : List Nat) (h : ¬ l = []) :
    (pyMin key l).isSome := by
  cases l with
  | nil => exact absurd rfl h
  | cons x xs => rfl

/-- All values a length-one dedup was built from are equal. -/
lemma dedup_length_one {α β : Type} [DecidableEq α] [DecidableEq β]
    (l : List α) (f : α → β) (h : ((l.map f).dedup).length = 1) :
    ∀ a ∈ l, ∀ b ∈ l, f a = f b := by
  rcases List.length_eq_one.mp h with ⟨x, hx⟩
  intro a ha b hb
  have h1 : f a ∈ (l.map f).dedup := List.mem_dedup.mpr (List.mem_map_of_mem f ha)
  have h2 : f b ∈ (l.map f).dedup := List.mem_dedup.mpr (List.mem_map_of_mem f hb)
  rw [hx] at h1 h2
  simp at h1 h2
  rw [h1, h2]

/-- `find?` over an id-preserving per-room update. -/
lemma find?_setRoom (l : List Room) (rid : Nat) (f : Room → Room)
    (hf : ∀ r : Room, (f r).room_id = r.room_id) :
    (l.map fun r => if r.room_id = rid then f r else r).find?
        (fun r => r.room_id = rid)
      = (l.find? fun r => r.room_id = rid).map f := by
  induction l with
  | nil => rfl
  | cons r rs ih =>
    by_cases h : r.room_id = rid
    · simp only [List.map_cons, List.find?_cons]
      rw [if_pos h]
      have h2 : ((f r).room_id = rid) := by rw [hf r]; exact h
      simp [h, h2]
    · simp only [List.map_cons, List.find?_cons]
      rw [if_neg h]
      simp [h, ih]

/-- Reading the updated room back. -/
lemma getRoom_setRoom_self (s : Sched) (rid : Nat) (f : Room → Room)
    (hf : ∀ r : Room, (f r).room_id = r.room_id) :
    getRoom (setRoom s rid f) rid =
      ((s.rooms.find? fun r => r.room_id = rid).map f).getD defaultRoom := by
  unfold getRoom setRoom
  simp only
  rw [find?_setRoom _ _ _ hf]

/-- Reading another room is unaffected by the update. -/
lemma getRoom_setRoom_ne (s : Sched) (rid rid' : Nat) (f : Room → Room)
    (hf : ∀ r : Room, (f r).room_id = r.room_id) (h : ¬ rid' = rid) :
    getRoom (setRoom s rid f) rid' = getRoom s rid' := by
  unfold getRoom setRoom
  simp only
  congr 1
  induction s.rooms with
  | nil => rfl
  | cons r rs ih =>
    by_cases hr : r.room_id = rid
    · have h2 : ¬ ((f r).room_id = rid') := by rw [hf r, hr]; exact fun hc => h hc.symm
      have h3 : ¬ (r.room_id = rid') := by rw [hr]; exact fun hc => h hc.symm
      simp only [List.map_cons, List.find?_cons]
      rw [if_pos hr]
      simp [h2, h3, ih]
    · simp only [List.map_cons, List.find?_cons]
      rw [if_neg hr]
      by_cases h4 : r.room_id = rid'
      · simp [h4]
      · simp [h4, ih]

/-- A state-preserving room update leaves every room's state unchanged. -/
lemma getRoom_state_setRoom (s : Sched) (rid y : Nat) (f : Room → Room)
    (hf : ∀ r : Room, (f r).room_id = r.room_id)
    (hfs : ∀ r : Room, (f r).state = r.state) :
    (getRoom (setRoom s rid f) y).state = (getRoom s y).state := by
  by_cases h : y = rid
  · subst h
    rw [getRoom_setRoom_self s y f hf]
    unfold getRoom
    cases hfind : s.rooms.find? fun r => r.room_id = y with
    | none => simp [hfind]
    | some r => simp [hfind, hfs r]
  · rw [getRoom_setRoom_ne s rid y f hf h]

/-- C7 (amended): a speed change for a room in neither queue returns the
room's current state and touches nothing except the room's fan speed —
no journal write, no queue or timer change, all other room fields
intact. -/
theorem C7_amended_speed_change_off_room (s : Sched) (rid : Nat) (ns : FanSpeed)
    (h1 : rid ∉ s.servedQ) (h2 : rid ∉ s.waitingQ) :
    adjustWindSpeed s rid ns =
      (setRoom s rid (fun r => { r with fan_speed := ns }),
       { state := stateStr (getRoom s rid).state }) := by
  unfold adjustWindSpeed
  simp only [setRoom_servedQ, setRoom_waitingQ]
  rw [if_neg h1, if_neg h2]
  have hst : (getRoom (setRoom s rid fun r => { r with fan_speed := ns }) rid).state
      = (getRoom s rid).state :=
    getRoom_state_setRoom s rid rid _ (fun r => rfl) (fun r => rfl)
  rw [hst]

/-- Witness for the amended C7 at a concrete state: room 2 of a fresh
three-room system is off and in neither queue. -/
theorem C7_amended_speed_change_off_room_witness :
    2 ∉ (mkSystem 3 1 1 120).servedQ ∧ 2 ∉ (mkSystem 3 1 1 120).waitingQ ∧
    adjustWindSpeed (mkSystem 3 1 1 120) 2 .low =
      (setRoom (mkSystem 3 1 1 120) 2 (fun r => { r with fan_speed := .low }),
       { state := stateStr (getRoom (mkSystem 3 1 1 120) 2).state }) :=
  ⟨by decide, by decide,
   C7_amended_speed_change_off_room (mkSystem 3 1 1 120) 2 .low
     (by decide) (by decide)⟩

@[simp] lemma prioritySchedule_rooms (s : Sched) (rid : Nat) :
    (prioritySchedule s rid).rooms = s.rooms := rfl

@[simp] lemma prioritySchedule_waitingQ (s : Sched) (rid : Nat) :
    (prioritySchedule s rid).waitingQ = s.waitingQ := rfl

@[simp] lemma prioritySchedule_servedQ (s : Sched) (rid : Nat) :
    (prioritySchedule s rid).servedQ = sortByKey (servedKey s) s.servedQ := rfl

@[simp] lemma speedChangeRecord_rooms (s : Sched) (rid : Nat)
    (o n : FanSpeed) (fee : ℚ) :
    (speedChangeRecord s rid o n fee).rooms = s.rooms := by
  unfold speedChangeRecord
  split
  · split
    · rfl
    · split <;> rfl
  · rfl

@[simp] lemma speedChangeRecord_servedQ (s : Sched) (rid : Nat)
    (o n : FanSpeed) (fee : ℚ) :
    (speedChangeRecord s rid o n fee).servedQ = s.servedQ := by
  unfold speedChangeRecord
  split
  · split
    · rfl
    · split <;> rfl
  · rfl

@[simp] lemma speedChangeRecord_waitingQ (s : Sched) (rid : Nat)
    (o n : FanSpeed) (fee : ℚ) :
    (speedChangeRecord s rid o n fee).waitingQ = s.waitingQ := by
  unfold speedChangeRecord
  split
  · split
    · rfl
    · split <;> rfl
  · rfl

/-- `getRoom` only looks at the room list. -/
lemma getRoom_congr (s1 s2 : Sched) (y : Nat) (h : s1.rooms = s2.rooms) :
    getRoom s1 y = getRoom s2 y := by
  unfold getRoom
  rw [h]

/-- C8 (amended): when a serving room's speed is raised, the scheduler
only re-sorts the serving queue and journals — no preemption: the
serving queue keeps exactly the same members, the waiting queue is
untouched, and no room's power state changes; the call reports success. -/
theorem C8_amended_speed_raise_only_resorts (s : Sched) (rid : Nat) (ns : FanSpeed)
    (hserv : rid ∈ s.servedQ)
    (hinc : (getRoom s rid).fan_speed.val < ns.val) :
    (∀ y, y ∈ (adjustWindSpeed s rid ns).1.servedQ ↔ y ∈ s.servedQ) ∧
    (adjustWindSpeed s rid ns).1.waitingQ = s.waitingQ ∧
    (∀ y, (getRoom (adjustWindSpeed s rid ns).1 y).state = (getRoom s y).state) ∧
    (adjustWindSpeed s rid ns).2 = { ok := true } := by
  have key : adjustWindSpeed s rid ns =
      (prioritySchedule
        (speedChangeRecord
          (setRoom (sortServed (setRoom s rid fun r => { r with fan_speed := ns }))
            rid fun r => { r with fan_speed := ns })
          rid (getRoom s rid).fan_speed ns (calcFeeRate ns)) rid,
       { ok := true }) := by
    unfold adjustWindSpeed
    simp only [setRoom_servedQ, updateSpeed]
    rw [if_pos hserv, if_pos hinc]
  rw [key]
  refine ⟨?_, ?_, ?_, rfl⟩
  · intro y
    simp only [prioritySchedule_servedQ, mem_sortByKey, speedChangeRecord_servedQ]
    show y ∈ (sortServed _).servedQ ↔ _
    unfold sortServed
    simp only [mem_sortByKey, setRoom_servedQ]
  · simp only [prioritySchedule_waitingQ, speedChangeRecord_waitingQ,
      setRoom_waitingQ, sortServed_waitingQ]
  · intro y
    have h1 : (prioritySchedule
        (speedChangeRecord
          (setRoom (sortServed (setRoom s rid fun r => { r with fan_speed := ns }))
            rid fun r => { r with fan_speed := ns })
          rid (getRoom s rid).fan_speed ns (calcFeeRate ns)) rid).rooms =
        (setRoom (sortServed (setRoom s rid fun r => { r with fan_speed := ns }))
          rid fun r => { r with fan_speed := ns }).rooms := by
      simp only [prioritySchedule_rooms, speedChangeRecord_rooms]
    rw [getRoom_congr _ _ y h1]
    rw [getRoom_state_setRoom _ rid y (fun r => { r with fan_speed := ns })
      (fun r => rfl) (fun r => rfl)]
    have h2 : (sortServed (setRoom s rid fun r => { r with fan_speed := ns })).rooms =
        (setRoom s rid fun r => { r with fan_speed := ns }).rooms := rfl
    rw [getRoom_congr _ _ y h2]
    rw [getRoom_state_setRoom _ rid y (fun r => { r with fan_speed := ns })
      (fun r => rfl) (fun r => rfl)]

/-- Witness for the amended C8: room 1 serving at medium next to room 2,
raised to high. -/
theorem C8_amended_speed_raise_only_resorts_witness :
    1 ∈ c8base.servedQ ∧ (getRoom c8base 1).fan_speed.val < FanSpeed.high.val ∧
    ((∀ y, y ∈ (adjustWindSpeed c8base 1 .high).1.servedQ ↔ y ∈ c8base.servedQ) ∧
     (adjustWindSpeed c8base 1 .high).1.waitingQ = c8base.waitingQ ∧
     (∀ y, (getRoom (adjustWindSpeed c8base 1 .high).1 y).state =
        (getRoom c8base y).state) ∧
     (adjustWindSpeed c8base 1 .high).2 = { ok := true }) :=
  ⟨by decide, by decide,
   C8_amended_speed_raise_only_resorts c8base 1 .high (by decide) (by decide)⟩

@[simp] lemma waitingPush_rooms (s : Sched) (rid : Nat) :
    (waitingPush s rid).rooms = s.rooms := by
  unfold waitingPush; split <;> rfl

@[simp] lemma waitingPush_servedQ (s : Sched) (rid : Nat) :
    (waitingPush s rid).servedQ = s.servedQ := by
  unfold waitingPush; split <;> rfl

@[simp] lemma waitingPush_serviceTimer (s : Sched) (rid : Nat) :
    (waitingPush s rid).serviceTimer = s.serviceTimer := by
  unfold waitingPush; split <;> rfl

@[simp] lemma waitingPush_waitTimer (s : Sched) (rid : Nat) :
    (waitingPush s rid).waitTimer = s.waitTimer := by
  unfold waitingPush; split <;> rfl

@[simp] lemma waitingPush_journal (s : Sched) (rid : Nat) :
    (waitingPush s rid).journal = s.journal := by
  unfold waitingPush; split <;> rfl

lemma find?_map_assocSet {α : Type} (l : List (Nat × α)) (k : Nat) (v : α) :
    (l.map fun p => if p.1 = k then (k, v) else p).find? (fun p => p.1 = k)
      = ((l.find? fun p => p.1 = k).map fun _ => (k, v)) := by
  induction l with
  | nil => rfl
  | cons p ps ih =>
    by_cases h : p.1 = k
    · have he : (if p.1 = k then (k,v) else p) = (k,v) := if_pos h
      simp [List.find?_cons, he, h]
    · have he : (if p.1 = k then (k,v) else p) = p := if_neg h
      simp [List.find?_cons, he, h, ih]

/-- Writing a key into a dict makes it readable. -/
lemma assocGet?_assocSet_self {α : Type} (l : List (Nat × α)) (k : Nat) (v : α) :
    assocGet? (assocSet l k v) k = some v := by
  unfold assocGet? assocSet
  by_cases hp : (l.find? fun p => p.1 = k).isSome
  · rw [if_pos hp]
    rw [find?_map_assocSet]
    rcases Option.isSome_iff_exists.mp hp with ⟨q, hq⟩
    rw [hq]
    rfl
  · rw [if_neg hp]
    have hnone : (l.find? fun p => p.1 = k) = none := Option.not_isSome_iff_eq_none.mp hp
    rw [List.find?_append, hnone]
    simp

/-- A freshly reset timer reads zero. -/
lemma timerGet_assocSet_self (l : List (Nat × Nat)) (k v : Nat) :
    timerGet (assocSet l k v) k = v := by
  unfold timerGet
  rw [assocGet?_assocSet_self]
  rfl

/-- Membership in the waiting queue after a push with a free slot. -/
lemma mem_waitingPush_self (s : Sched) (rid : Nat) (h1 : rid ∉ s.waitingQ)
    (h2 : s.waitingCap = -1 ∨ (s.waitingQ.length : ℤ) < s.waitingCap) :
    rid ∈ (waitingPush s rid).waitingQ := by
  unfold waitingPush
  rw [if_pos ⟨h1, h2⟩]
  unfold sortWaiting
  simp only [mem_sortByKey]
  simp

/-- A push with no free slot is dropped. -/
lemma waitingPush_full (s : Sched) (rid : Nat)
    (h2 : ¬ (s.waitingCap = -1 ∨ (s.waitingQ.length : ℤ) < s.waitingCap)) :
    waitingPush s rid = s := by
  unfold waitingPush
  rw [if_neg (fun hc => h2 hc.2)]

/-- `find?` through `setRoomTemp`. -/
lemma find?_rooms_setRoomTemp (s : Sched) (rid : Nat) (t : ℚ) :
    ((setRoomTemp s rid t).rooms.find? fun q => q.room_id = rid)
      = (s.rooms.find? fun q => q.room_id = rid).map
          (fun r => { r with current_temp := t }) := by
  unfold setRoomTemp setRoom
  exact find?_setRoom s.rooms rid _ (fun r => rfl)

/-- `find?` through `setRoomState`. -/
lemma find?_rooms_setRoomState (s : Sched) (rid : Nat) (st : PowerState) :
    ((setRoomState s rid st).rooms.find? fun q => q.room_id = rid)
      = (s.rooms.find? fun q => q.room_id = rid).map
          (fun r => { r with state := st }) := by
  unfold setRoomState setRoom
  exact find?_setRoom s.rooms rid _ (fun r => rfl)

/-- What the paused→waiting transition does to the room outside both
queues: state WAITING, wait timer reset to zero, queued exactly when the
waiting queue has a slot. -/
lemma pausedToWaiting_facts (s : Sched) (rid : Nat) (r1 : Room)
    (hfind : (s.rooms.find? fun q => q.room_id = rid) = some r1)
    (hns : rid ∉ s.servedQ) (hnw : rid ∉ s.waitingQ) :
    (getRoom (pausedToWaiting s rid) rid).state = .waiting ∧
    timerGet (pausedToWaiting s rid).waitTimer rid = 0 ∧
    ((s.waitingCap = -1 ∨ (s.waitingQ.length : ℤ) < s.waitingCap) →
      rid ∈ (pausedToWaiting s rid).waitingQ) ∧
    (¬ (s.waitingCap = -1 ∨ (s.waitingQ.length : ℤ) < s.waitingCap) →
      rid ∉ (pausedToWaiting s rid).waitingQ) := by
  have hstep : pausedToWaiting s rid =
      { waitingPush (setRoomState s rid .waiting) rid with
        waitTimer :=
          assocSet (waitingPush (setRoomState s rid .waiting) rid).waitTimer rid 0 } := by
    unfold pausedToWaiting
    simp only [setRoomState, setRoom_servedQ]
    rw [if_neg hns]
    simp only [setRoom_waitingQ]
    rw [if_neg hnw]
  rw [hstep]
  refine ⟨?_, ?_, ?_, ?_⟩
  · have hre : ({ waitingPush (setRoomState s rid .waiting) rid with
        waitTimer :=
          assocSet (waitingPush (setRoomState s rid .waiting) rid).waitTimer rid 0 } : Sched).rooms
        = (setRoomState s rid .waiting).rooms := by
      simp only [waitingPush_rooms]
    unfold getRoom
    rw [hre, find?_rooms_setRoomState, hfind]
    rfl
  · exact timerGet_assocSet_self _ _ _
  · intro hslot
    show rid ∈ (waitingPush (setRoomState s rid .waiting) rid).waitingQ
    exact mem_waitingPush_self _ _ (by simpa using hnw)
      (by simpa using hslot)
  · intro hslot
    show rid ∉ (waitingPush (setRoomState s rid .waiting) rid).waitingQ
    rw [waitingPush_full _ _ (by simpa using hslot)]
    simpa using hnw

/-- One paused cooling second: drift up by one normalized step; cross the
threshold exactly when the new temperature reaches `target + 1 − 0.001`. -/
lemma pausedCoolLoop_one (s : Sched) (rid : Nat) (r1 : Room)
    (hfind : (s.rooms.find? fun q => q.room_id = rid) = some r1) :
    (r1.target_temp + 1 - 1/1000 ≤ norm3 (r1.current_temp + (0.5:ℚ)/60) →
      pausedCoolLoop rid ((0.5:ℚ)/60) 1 s =
        pausedToWaiting (setRoomTemp s rid (norm3 (r1.current_temp + (0.5:ℚ)/60))) rid) ∧
    (norm3 (r1.current_temp + (0.5:ℚ)/60) < r1.target_temp + 1 - 1/1000 →
      pausedCoolLoop rid ((0.5:ℚ)/60) 1 s =
        setRoomTemp s rid (norm3 (r1.current_temp + (0.5:ℚ)/60))) := by
  have hr1 : getRoom s rid = r1 := by
    unfold getRoom
    rw [hfind]
    rfl
  have hroom2 : getRoom (setRoomTemp s rid (norm3 (r1.current_temp + (0.5:ℚ)/60))) rid
      = { r1 with current_temp := norm3 (r1.current_temp + (0.5:ℚ)/60) } := by
    unfold getRoom
    rw [find?_rooms_setRoomTemp, hfind]
    rfl
  have hstep : pausedCoolLoop rid ((0.5:ℚ)/60) 1 s =
      (if (getRoom (setRoomTemp s rid (norm3 ((getRoom s rid).current_temp + (0.5:ℚ)/60))) rid).target_temp
            + 1 - 1/1000 ≤
          (getRoom (setRoomTemp s rid (norm3 ((getRoom s rid).current_temp + (0.5:ℚ)/60))) rid).current_temp then
        pausedToWaiting (setRoomTemp s rid (norm3 ((getRoom s rid).current_temp + (0.5:ℚ)/60))) rid
      else setRoomTemp s rid (norm3 ((getRoom s rid).current_temp + (0.5:ℚ)/60))) := rfl
  rw [hstep, hr1, hroom2]
  constructor
  · intro hth
    rw [if_pos hth]
  · intro hlt
    rw [if_neg (not_le.mpr hlt)]

/-- One paused heating second, symmetrically. -/
lemma pausedHeatLoop_one (s : Sched) (rid : Nat) (r1 : Room)
    (hfind : (s.rooms.find? fun q => q.room_id = rid) = some r1) :
    (norm3 (r1.current_temp - (0.5:ℚ)/60) ≤ r1.target_temp - 1 + 1/1000 →
      pausedHeatLoop rid ((0.5:ℚ)/60) 1 s =
        pausedToWaiting (setRoomTemp s rid (norm3 (r1.current_temp - (0.5:ℚ)/60))) rid) ∧
    (r1.target_temp - 1 + 1/1000 < norm3 (r1.current_temp - (0.5:ℚ)/60) →
      pausedHeatLoop rid ((0.5:ℚ)/60) 1 s =
        setRoomTemp s rid (norm3 (r1.current_temp - (0.5:ℚ)/60))) := by
  have hr1 : getRoom s rid = r1 := by
    unfold getRoom
    rw [hfind]
    rfl
  have hroom2 : getRoom (setRoomTemp s rid (norm3 (r1.current_temp - (0.5:ℚ)/60))) rid
      = { r1 with current_temp := norm3 (r1.current_temp - (0.5:ℚ)/60) } := by
    unfold getRoom
    rw [find?_rooms_setRoomTemp, hfind]
    rfl
  have hstep : pausedHeatLoop rid ((0.5:ℚ)/60) 1 s =
      (if (getRoom (setRoomTemp s rid (norm3 ((getRoom s rid).current_temp - (0.5:ℚ)/60))) rid).current_temp ≤
          (getRoom (setRoomTemp s rid (norm3 ((getRoom s rid).current_temp - (0.5:ℚ)/60))) rid).target_temp
            - 1 + 1/1000 then
        pausedToWaiting (setRoomTemp s rid (norm3 ((getRoom s rid).current_temp - (0.5:ℚ)/60))) rid
      else setRoomTemp s rid (norm3 ((getRoom s rid).current_temp - (0.5:ℚ)/60))) := rfl
  rw [hstep, hr1, hroom2]
  constructor
  · intro hth
    rw [if_pos hth]
  · intro hlt
    rw [if_neg (not_le.mpr hlt)]

/-- C6 (amended): during a tick, a paused room (in neither queue) in
cooling mode drifts up one normalized 0.5 °C/min step; exactly when the
new temperature reaches `target + 1.0` within the 0.001 tolerance it
transitions to WAITING with its wait timer reset to zero, and it is
placed back in the waiting queue provided the waiting queue has a free
slot (with a full waiting queue the push is silently dropped and the
room is left waiting but unqueued); below the threshold it stays paused.
Symmetrically in heating mode at `target − 1.0`.  The engine bills
nothing for a paused room. -/
theorem C6_amended_paused_threshold (s : Sched) (rid : Nat)
    (hp : (getRoom s rid).state = .paused)
    (hns : rid ∉ s.servedQ) (hnw : rid ∉ s.waitingQ) :
    (updateTemperature s rid 1).2 = 0 ∧
    ((getRoom s rid).mode = .cool →
      ((getRoom s rid).target_temp + 1 - 1/1000 ≤
          norm3 (norm3 (getRoom s rid).current_temp + (0.5:ℚ)/60) →
        (getRoom (updateTemperature s rid 1).1 rid).state = .waiting ∧
        timerGet (updateTemperature s rid 1).1.waitTimer rid = 0 ∧
        ((s.waitingCap = -1 ∨ (s.waitingQ.length : ℤ) < s.waitingCap) →
          rid ∈ (updateTemperature s rid 1).1.waitingQ) ∧
        (¬ (s.waitingCap = -1 ∨ (s.waitingQ.length : ℤ) < s.waitingCap) →
          rid ∉ (updateTemperature s rid 1).1.waitingQ)) ∧
      (norm3 (norm3 (getRoom s rid).current_temp + (0.5:ℚ)/60) <
          (getRoom s rid).target_temp + 1 - 1/1000 →
        (getRoom (updateTemperature s rid 1).1 rid).state = .paused ∧
        (getRoom (updateTemperature s rid 1).1 rid).current_temp =
          norm3 (norm3 (getRoom s rid).current_temp + (0.5:ℚ)/60))) ∧
    ((getRoom s rid).mode = .heat →
      (norm3 (norm3 (getRoom s rid).current_temp - (0.5:ℚ)/60) ≤
          (getRoom s rid).target_temp - 1 + 1/1000 →
        (getRoom (updateTemperature s rid 1).1 rid).state = .waiting ∧
        timerGet (updateTemperature s rid 1).1.waitTimer rid = 0 ∧
        ((s.waitingCap = -1 ∨ (s.waitingQ.length : ℤ) < s.waitingCap) →
          rid ∈ (updateTemperature s rid 1).1.waitingQ) ∧
        (¬ (s.waitingCap = -1 ∨ (s.waitingQ.length : ℤ) < s.waitingCap) →
          rid ∉ (updateTemperature s rid 1).1.waitingQ)) ∧
      ((getRoom s rid).target_temp - 1 + 1/1000 <
          norm3 (norm3 (getRoom s rid).current_temp - (0.5:ℚ)/60) →
        (getRoom (updateTemperature s rid 1).1 rid).state = .paused ∧
        (getRoom (updateTemperature s rid 1).1 rid).current_temp =
          norm3 (norm3 (getRoom s rid).current_temp - (0.5:ℚ)/60))) := by
  have hsome : ∃ r0, (s.rooms.find? fun q => q.room_id = rid) = some r0 := by
    cases hf : s.rooms.find? fun q => q.room_id = rid with
    | some r0 => exact ⟨r0, rfl⟩
    | none =>
      exfalso
      have hd : getRoom s rid = defaultRoom := by
        unfold getRoom
        rw [hf]
        rfl
      rw [hd] at hp
      exact absurd hp (by decide)
  obtain ⟨r0, hfind⟩ := hsome
  have hr0 : getRoom s rid = r0 := by
    unfold getRoom
    rw [hfind]
    rfl
  have hps : r0.state = PowerState.paused := by rw [hr0] at hp; exact hp
  have hroom1 : getRoom (setRoomTemp s rid (norm3 r0.current_temp)) rid
      = { r0 with current_temp := norm3 r0.current_temp } := by
    unfold getRoom
    rw [find?_rooms_setRoomTemp, hfind]
    rfl
  have hfind1 : ((setRoomTemp s rid (norm3 r0.current_temp)).rooms.find?
      fun q => q.room_id = rid) = some { r0 with current_temp := norm3 r0.current_temp } := by
    rw [find?_rooms_setRoomTemp, hfind]
    rfl
  have hupd : updateTemperature s rid 1 =
      (match r0.mode with
       | .cool =>
         (pausedCoolLoop rid ((0.5:ℚ)/60) 1 (setRoomTemp s rid (norm3 r0.current_temp)), 0)
       | .heat =>
         (pausedHeatLoop rid ((0.5:ℚ)/60) 1 (setRoomTemp s rid (norm3 r0.current_temp)), 0)) := by
    unfold updateTemperature
    rw [hr0]
    dsimp only
    rw [hroom1]
    dsimp only
    rw [hps]
  rw [hr0, hupd]
  cases hmode : r0.mode with
  | cool =>
    dsimp only
    have hone := pausedCoolLoop_one (setRoomTemp s rid (norm3 r0.current_temp)) rid
      { r0 with current_temp := norm3 r0.current_temp } hfind1
    refine ⟨rfl, fun _ => ⟨fun hth => ?_, fun hlt => ?_⟩, fun hcon => absurd hcon (by simp)⟩
    · have heq := hone.1 (by simpa using hth)
      rw [heq]
      have hfind2 : ((setRoomTemp (setRoomTemp s rid (norm3 r0.current_temp)) rid
          (norm3 (norm3 r0.current_temp + (0.5:ℚ)/60))).rooms.find? fun q => q.room_id = rid)
          = some { r0 with current_temp := norm3 (norm3 r0.current_temp + (0.5:ℚ)/60) } := by
        rw [find?_rooms_setRoomTemp, hfind1]
        rfl
      have hfacts := pausedToWaiting_facts _ rid _ hfind2 (by simpa using hns) (by simpa using hnw)
      refine ⟨hfacts.1, hfacts.2.1, fun hslot => hfacts.2.2.1 (by simpa using hslot),
        fun hslot => hfacts.2.2.2 (by simpa using hslot)⟩
    · have heq := hone.2 (by simpa using hlt)
      rw [heq]
      have hroom2 : getRoom (setRoomTemp (setRoomTemp s rid (norm3 r0.current_temp)) rid
          (norm3 (norm3 r0.current_temp + (0.5:ℚ)/60))) rid
          = { r0 with current_temp := norm3 (norm3 r0.current_temp + (0.5:ℚ)/60) } := by
        unfold getRoom
        rw [find?_rooms_setRoomTemp, hfind1]
        rfl
      rw [hroom2]
      exact ⟨hps, rfl⟩
  | heat =>
    dsimp only
    have hone := pausedHeatLoop_one (setRoomTemp s rid (norm3 r0.current_temp)) rid
      { r0 with current_temp := norm3 r0.current_temp } hfind1
    refine ⟨rfl, fun hcon => absurd hcon (by simp), fun _ => ⟨fun hth => ?_, fun hlt => ?_⟩⟩
    · have heq := hone.1 (by simpa using hth)
      rw [heq]
      have hfind2 : ((setRoomTemp (setRoomTemp s rid (norm3 r0.current_temp)) rid
          (norm3 (norm3 r0.current_temp - (0.5:ℚ)/60))).rooms.find? fun q => q.room_id = rid)
          = some { r0 with current_temp := norm3 (norm3 r0.current_temp - (0.5:ℚ)/60) } := by
        rw [find?_rooms_setRoomTemp, hfind1]
        rfl
      have hfacts := pausedToWaiting_facts _ rid _ hfind2 (by simpa using hns) (by simpa using hnw)
      refine ⟨hfacts.1, hfacts.2.1, fun hslot => hfacts.2.2.1 (by simpa using hslot),
        fun hslot => hfacts.2.2.2 (by simpa using hslot)⟩
    · have heq := hone.2 (by simpa using hlt)
      rw [heq]
      have hroom2 : getRoom (setRoomTemp (setRoomTemp s rid (norm3 r0.current_temp)) rid
          (norm3 (norm3 r0.current_temp - (0.5:ℚ)/60))) rid
          = { r0 with current_temp := norm3 (norm3 r0.current_temp - (0.5:ℚ)/60) } := by
        unfold getRoom
        rw [find?_rooms_setRoomTemp, hfind1]
        rfl
      rw [hroom2]
      exact ⟨hps, rfl⟩

/-- Witness for the amended C6 at the concrete paused-at-threshold state
`c6base` (room 1 paused at 25 °C with target 24 °C, waiting queue full). -/
theorem C6_amended_paused_threshold_witness :
    (getRoom c6base 1).state = .paused ∧ 1 ∉ c6base.servedQ ∧ 1 ∉ c6base.waitingQ ∧
    ((updateTemperature c6base 1 1).2 = 0 ∧
     ((getRoom c6base 1).mode = .cool →
       ((getRoom c6base 1).target_temp + 1 - 1/1000 ≤
           norm3 (norm3 (getRoom c6base 1).current_temp + (0.5:ℚ)/60) →
         (getRoom (updateTemperature c6base 1 1).1 1).state = .waiting ∧
         timerGet (updateTemperature c6base 1 1).1.waitTimer 1 = 0 ∧
         ((c6base.waitingCap = -1 ∨ (c6base.waitingQ.length : ℤ) < c6base.waitingCap) →
           1 ∈ (updateTemperature c6base 1 1).1.waitingQ) ∧
         (¬ (c6base.waitingCap = -1 ∨ (c6base.waitingQ.length : ℤ) < c6base.waitingCap) →
           1 ∉ (updateTemperature c6base 1 1).1.waitingQ)) ∧
       (norm3 (norm3 (getRoom c6base 1).current_temp + (0.5:ℚ)/60) <
           (getRoom c6base 1).target_temp + 1 - 1/1000 →
         (getRoom (updateTemperature c6base 1 1).1 1).state = .paused ∧
         (getRoom (updateTemperature c6base 1 1).1 1).current_temp =
           norm3 (norm3 (getRoom c6base 1).current_temp + (0.5:ℚ)/60))) ∧
     ((getRoom c6base 1).mode = .heat →
       (norm3 (norm3 (getRoom c6base 1).current_temp - (0.5:ℚ)/60) ≤
           (getRoom c6base 1).target_temp - 1 + 1/1000 →
         (getRoom (updateTemperature c6base 1 1).1 1).state = .waiting ∧
         timerGet (updateTemperature c6base 1 1).1.waitTimer 1 = 0 ∧
         ((c6base.waitingCap = -1 ∨ (c6base.waitingQ.length : ℤ) < c6base.waitingCap) →
           1 ∈ (updateTemperature c6base 1 1).1.waitingQ) ∧
         (¬ (c6base.waitingCap = -1 ∨ (c6base.waitingQ.length : ℤ) < c6base.waitingCap) →
           1 ∉ (updateTemperature c6base 1 1).1.waitingQ)) ∧
       ((getRoom c6base 1).target_temp - 1 + 1/1000 <
           norm3 (norm3 (getRoom c6base 1).current_temp - (0.5:ℚ)/60) →
         (getRoom (updateTemperature c6base 1 1).1 1).state = .paused ∧
         (getRoom (updateTemperature c6base 1 1).1 1).current_temp =
           norm3 (norm3 (getRoom c6base 1).current_temp - (0.5:ℚ)/60)))) :=
  ⟨by decide, by decide, by decide,
   C6_amended_paused_threshold c6base 1 (by decide) (by decide) (by decide)⟩

@[simp] lemma servedPush_rooms (s : Sched) (rid : Nat) :
    (servedPush s rid).rooms = s.rooms := by
  unfold servedPush; split <;> rfl

@[simp] lemma servedPush_waitingQ (s : Sched) (rid : Nat) :
    (servedPush s rid).waitingQ = s.waitingQ := by
  unfold servedPush; split <;> rfl

@[simp] lemma servedPush_serviceTimer (s : Sched) (rid : Nat) :
    (servedPush s rid).serviceTimer = s.serviceTimer := by
  unfold servedPush; split <;> rfl

@[simp] lemma servedPush_waitTimer (s : Sched) (rid : Nat) :
    (servedPush s rid).waitTimer = s.waitTimer := by
  unfold servedPush; split <;> rfl

@[simp] lemma servedPush_journal (s : Sched) (rid : Nat) :
    (servedPush s rid).journal = s.journal := by
  unfold servedPush; split <;> rfl

@[simp] lemma servedPush_waitingCap (s : Sched) (rid : Nat) :
    (servedPush s rid).waitingCap = s.waitingCap := by
  unfold servedPush; split <;> rfl

@[simp] lemma servedPush_servedCap (s : Sched) (rid : Nat) :
    (servedPush s rid).servedCap = s.servedCap := by
  unfold servedPush; split <;> rfl

@[simp] lemma servedPop_rooms (s : Sched) (rid : Nat) :
    (servedPop s rid).rooms = s.rooms := by
  unfold servedPop; split <;> rfl

@[simp] lemma servedPop_waitingQ (s : Sched) (rid : Nat) :
    (servedPop s rid).waitingQ = s.waitingQ := by
  unfold servedPop; split <;> rfl

@[simp] lemma servedPop_serviceTimer (s : Sched) (rid : Nat) :
    (servedPop s rid).serviceTimer = s.serviceTimer := by
  unfold servedPop; split <;> rfl

@[simp] lemma servedPop_waitTimer (s : Sched) (rid : Nat) :
    (servedPop s rid).waitTimer = s.waitTimer := by
  unfold servedPop; split <;> rfl

@[simp] lemma servedPop_journal (s : Sched) (rid : Nat) :
    (servedPop s rid).journal = s.journal := by
  unfold servedPop; split <;> rfl

@[simp] lemma servedPop_waitingCap (s : Sched) (rid : Nat) :
    (servedPop s rid).waitingCap = s.waitingCap := by
  unfold servedPop; split <;> rfl

@[simp] lemma servedPop_servedCap (s : Sched) (rid : Nat) :
    (servedPop s rid).servedCap = s.servedCap := by
  unfold servedPop; split <;> rfl

@[simp] lemma servedPop_timeSlice (s : Sched) (rid : Nat) :
    (servedPop s rid).timeSlice = s.timeSlice := by
  unfold servedPop; split <;> rfl

@[simp] lemma waitingPop_rooms (s : Sched) (rid : Nat) :
    (waitingPop s rid).rooms = s.rooms := by
  unfold waitingPop; split <;> rfl

@[simp] lemma waitingPop_servedQ (s : Sched) (rid : Nat) :
    (waitingPop s rid).servedQ = s.servedQ := by
  unfold waitingPop; split <;> rfl

@[simp] lemma waitingPop_serviceTimer (s : Sched) (rid : Nat) :
    (waitingPop s rid).serviceTimer = s.serviceTimer := by
  unfold waitingPop; split <;> rfl

@[simp] lemma waitingPop_waitTimer (s : Sched) (rid : Nat) :
    (waitingPop s rid).waitTimer = s.waitTimer := by
  unfold waitingPop; split <;> rfl

@[simp] lemma waitingPop_journal (s : Sched) (rid : Nat) :
    (waitingPop s rid).journal = s.journal := by
  unfold waitingPop; split <;> rfl

@[simp] lemma waitingPop_servedCap (s : Sched) (rid : Nat) :
    (waitingPop s rid).servedCap = s.servedCap := by
  unfold waitingPop; split <;> rfl

@[simp] lemma waitingPop_waitingCap (s : Sched) (rid : Nat) :
    (waitingPop s rid).waitingCap = s.waitingCap := by
  unfold waitingPop; split <;> rfl

/-- `WaitingQueue.pop` removes the id (no-op when absent). -/
lemma waitingPop_waitingQ (s : Sched) (rid : Nat) :
    (waitingPop s rid).waitingQ = s.waitingQ.erase rid := by
  unfold waitingPop
  split
  · rfl
  · exact (List.erase_of_not_mem (by assumption)).symm

/-- Membership after `ServedQueue.push`. -/
lemma mem_servedPush (s : Sched) (rid y : Nat) :
    y ∈ (servedPush s rid).servedQ ↔
      y ∈ s.servedQ ∨ (y = rid ∧ rid ∉ s.servedQ ∧ s.servedQ.length < s.servedCap) := by
  unfold servedPush
  split
  · next hc =>
    unfold sortServed
    simp only [mem_sortByKey]
    simp only [List.mem_append, List.mem_singleton]
    constructor
    · rintro (h | h)
      · exact Or.inl h
      · exact Or.inr ⟨h, hc⟩
    · rintro (h | ⟨h, _⟩)
      · exact Or.inl h
      · exact Or.inr h
  · next hc =>
    constructor
    · exact Or.inl
    · rintro (h | ⟨rfl, h⟩)
      · exact h
      · exact absurd h hc

/-- Membership after `ServedQueue.pop` (on a duplicate-free queue). -/
lemma mem_servedPop (s : Sched) (rid y : Nat) (hnodup : s.servedQ.Nodup) :
    y ∈ (servedPop s rid).servedQ ↔ y ∈ s.servedQ ∧ ¬ y = rid := by
  unfold servedPop
  split
  · next hc =>
    unfold sortServed
    simp only [mem_sortByKey]
    rw [hnodup.mem_erase_iff]
    tauto
  · next hc =>
    constructor
    · intro h
      exact ⟨h, fun he => hc (he ▸ h)⟩
    · exact And.left

/-- Queue length after `ServedQueue.pop` of a member. -/
lemma length_servedPop_of_mem (s : Sched) (rid : Nat) (h : rid ∈ s.servedQ) :
    (servedPop s rid).servedQ.length = s.servedQ.length - 1 := by
  unfold servedPop
  rw [if_pos h]
  unfold sortServed
  simp only [length_sortByKey]
  exact List.length_erase_of_mem h

/-- `admitServing` reports a "serving" admission. -/
lemma admitServing_snd (s : Sched) (rid : Nat) (t : ℚ) (m : Mode) (op : String) :
    ((admitServing s rid t m op).2.state = "serving" ∧
     (admitServing s rid t m op).2.mode = some m ∧
     (admitServing s rid t m op).2.target_temp = some 25) := by
  unfold admitServing setTarget
  exact ⟨rfl, rfl, rfl⟩

/-- `admitServing` only touches the serving queue through the initial
push. -/
lemma admitServing_servedQ (s : Sched) (rid : Nat) (t : ℚ) (m : Mode) (op : String) :
    (admitServing s rid t m op).1.servedQ = (servedPush s rid).servedQ := by
  unfold admitServing setTarget
  simp only [setRoom_servedQ]

/-- `admitServing` leaves the waiting queue alone. -/
lemma admitServing_waitingQ (s : Sched) (rid : Nat) (t : ℚ) (m : Mode) (op : String) :
    (admitServing s rid t m op).1.waitingQ = s.waitingQ := by
  unfold admitServing setTarget
  simp only [setRoom_waitingQ, servedPush_waitingQ]

@[simp] lemma waitingPush_waitingCap (s : Sched) (rid : Nat) :
    (waitingPush s rid).waitingCap = s.waitingCap := by
  unfold waitingPush; split <;> rfl

@[simp] lemma waitingPush_servedCap (s : Sched) (rid : Nat) :
    (waitingPush s rid).servedCap = s.servedCap := by
  unfold waitingPush; split <;> rfl

@[simp] lemma waitingPush_timeSlice (s : Sched) (rid : Nat) :
    (waitingPush s rid).timeSlice = s.timeSlice := by
  unfold waitingPush; split <;> rfl

/-- Rooms other than the admitted one are untouched by `admitServing`. -/
lemma admitServing_getRoom_ne (s : Sched) (rid y : Nat) (t : ℚ) (m : Mode)
    (op : String) (h : ¬ y = rid) :
    getRoom (admitServing s rid t m op).1 y = getRoom s y := by
  unfold admitServing setTarget
  dsimp only
  show getRoom (setRoom (servedPush s rid) rid
      (fun r => { r with current_temp := norm3 t, mode := m, target_temp := 25
                         fan_speed := .medium, state := .serving })) y = getRoom s y
  rw [getRoom_setRoom_ne _ rid y
    (fun r => { r with current_temp := norm3 t, mode := m, target_temp := 25
                       fan_speed := .medium, state := .serving }) (fun r => rfl) h]
  exact getRoom_congr (servedPush s rid) s y (servedPush_rooms s rid)

/-- `demoteVictim` pops the victim from the serving queue and leaves the
other members. -/
lemma demoteVictim_servedQ (s : Sched) (v : Nat) :
    (demoteVictim s v).servedQ = (servedPop s v).servedQ := by
  unfold demoteVictim
  simp only [setRoom_servedQ, waitingPush_servedQ, setRoomState]

lemma demoteVictim_servedCap (s : Sched) (v : Nat) :
    (demoteVictim s v).servedCap = s.servedCap := by
  unfold demoteVictim
  simp only [setRoomState, setRoom_servedCap, waitingPush_servedCap, servedPop_servedCap]

/-- The victim's room state after `demoteVictim`. -/
lemma demoteVictim_victim_state (s : Sched) (v : Nat) (rv : Room)
    (hfind : (s.rooms.find? fun q => q.room_id = v) = some rv) :
    getRoom (demoteVictim s v) v = { rv with state := .waiting } := by
  unfold demoteVictim
  have h1 : getRoom
      { waitingPush
          { setRoomState (servedPop s v) v .waiting with
            serviceTimer := assocRemove (setRoomState (servedPop s v) v .waiting).serviceTimer v } v with
        waitTimer := assocSet (waitingPush
          { setRoomState (servedPop s v) v .waiting with
            serviceTimer := assocRemove (setRoomState (servedPop s v) v .waiting).serviceTimer v } v).waitTimer v 0 } v
      = getRoom (setRoomState (servedPop s v) v .waiting) v := by
    apply getRoom_congr
    simp only [waitingPush_rooms]
  dsimp only
  rw [h1]
  unfold getRoom
  rw [find?_rooms_setRoomState]
  have h2 : ((servedPop s v).rooms.find? fun q => q.room_id = v) = some rv := by
    rw [servedPop_rooms]
    exact hfind
  rw [h2]
  rfl

/-- The victim's selection of `power_on` satisfies the spec's rules. -/
lemma chooseVictim_spec (s : Sched) (rid : Nat) (h : ¬ lowerRooms s rid = []) :
    ∃ victim, chooseVictim s rid = some victim ∧
      victim ∈ lowerRooms s rid ∧
      (∀ x, lowerRooms s rid = [x] → victim = x) ∧
      ((((lowerRooms s rid).map (speedVal s)).dedup).length = 1 →
        ∀ y ∈ lowerRooms s rid,
          timerGet s.serviceTimer y ≤ timerGet s.serviceTimer victim) ∧
      (¬ (((lowerRooms s rid).map (speedVal s)).dedup).length = 1 →
        ∀ y ∈ lowerRooms s rid, speedVal s victim ≤ speedVal s y) := by
  by_cases hded : (((lowerRooms s rid).map (speedVal s)).dedup).length = 1
  · have hv : chooseVictim s rid
        = pyMax (fun y => ((timerGet s.serviceTimer y : ℤ), 0)) (lowerRooms s rid) := by
      unfold chooseVictim
      rw [if_pos hded]
    rcases hsome : pyMax (fun y => ((timerGet s.serviceTimer y : ℤ), 0)) (lowerRooms s rid) with _ | v
    · exact absurd (hsome ▸ pyMax_isSome _ _ h) (by simp)
    · refine ⟨v, by rw [hv, hsome], pyMax_mem _ _ _ hsome, ?_, ?_, fun hc => absurd hded hc⟩
      · intro x hx
        have := pyMax_mem _ _ _ hsome
        rw [hx] at this
        simpa using this
      · intro _ y hy
        have h2 := pyMax_ge _ _ _ hsome y hy
        unfold ltLex at h2
        simp only [not_or, not_and, not_lt] at h2
        have := h2.1
        omega
  · have hv : chooseVictim s rid
        = pyMin (fun y => ((speedVal s y : ℤ), 0)) (lowerRooms s rid) := by
      unfold chooseVictim
      rw [if_neg hded]
    rcases hsome : pyMin (fun y => ((speedVal s y : ℤ), 0)) (lowerRooms s rid) with _ | v
    · exact absurd (hsome ▸ pyMin_isSome _ _ h) (by simp)
    · refine ⟨v, by rw [hv, hsome], pyMin_mem _ _ _ hsome, ?_, fun hc => absurd hc hded, ?_⟩
      · intro x hx
        have := pyMin_mem _ _ _ hsome
        rw [hx] at this
        simpa using this
      · intro _ y hy
        have h2 := pyMin_le _ _ _ hsome y hy
        unfold ltLex at h2
        simp only [not_or, not_and, not_lt] at h2
        have := h2.1
        omega

/-- C2: with a full serving queue, `power_on` preempts exactly when some
serving room has strictly lower fan speed than the requesting room.  An
equal-speed (or higher-speed-everywhere) request never preempts: it is
answered "waiting" and, when the waiting queue has a slot, queued there.
When lower-speed serving rooms exist, the victim follows the spec's
rules: it is one of them; the single lower-speed room when unique;
the longest-serving one when all candidates share one speed; one of
minimal speed when the candidates' speeds differ.  The victim leaves the
serving queue in state WAITING and the requester enters it. -/
theorem C2_power_on_preemption_rules (s : Sched) (rid : Nat) (temp : ℚ)
    (mode : Mode)
    (hfull : ¬ s.servedQ.length < s.servedCap)
    (hlen : s.servedQ.length ≤ s.servedCap)
    (hnodup : s.servedQ.Nodup)
    (hrid : rid ∉ s.servedQ)
    (hex : ∀ y ∈ s.servedQ, ((s.rooms.find? fun r => r.room_id = y)).isSome) :
    (lowerRooms s rid = [] →
      (powerOn s rid temp mode).2.state = "waiting" ∧
      (powerOn s rid temp mode).1.servedQ = s.servedQ ∧
      (rid ∉ s.waitingQ →
        (s.waitingCap = -1 ∨ (s.waitingQ.length : ℤ) < s.waitingCap) →
        rid ∈ (powerOn s rid temp mode).1.waitingQ)) ∧
    (¬ lowerRooms s rid = [] →
      ∃ victim, chooseVictim s rid = some victim ∧
        victim ∈ lowerRooms s rid ∧
        (∀ x, lowerRooms s rid = [x] → victim = x) ∧
        ((((lowerRooms s rid).map (speedVal s)).dedup).length = 1 →
          ∀ y ∈ lowerRooms s rid,
            timerGet s.serviceTimer y ≤ timerGet s.serviceTimer victim) ∧
        (¬ (((lowerRooms s rid).map (speedVal s)).dedup).length = 1 →
          ∀ y ∈ lowerRooms s rid, speedVal s victim ≤ speedVal s y) ∧
        (powerOn s rid temp mode).2.state = "serving" ∧
        rid ∈ (powerOn s rid temp mode).1.servedQ ∧
        victim ∉ (powerOn s rid temp mode).1.servedQ ∧
        (getRoom (powerOn s rid temp mode).1 victim).state = .waiting) := by
  constructor
  · intro hlow
    have hcond : ¬ (¬ s.servedQ = [] ∧ ¬ lowerRooms s rid = []) := by
      intro hc
      exact hc.2 hlow
    have hkey : powerOn s rid temp mode =
        (setRoom { waitingPush s rid with
            waitTimer := assocSet (waitingPush s rid).waitTimer rid 0 } rid
          (fun r => { r with state := .waiting, current_temp := temp, mode := mode }),
         { state := "waiting" }) := by
      unfold powerOn
      rw [if_neg hfull, if_neg hcond]
    rw [hkey]
    refine ⟨rfl, by simp, fun hnw hslot => ?_⟩
    simp only [setRoom_waitingQ]
    show rid ∈ (waitingPush s rid).waitingQ
    exact mem_waitingPush_self s rid hnw hslot
  · intro hlow
    obtain ⟨victim, hv, hmem, huniq, hsame, hdiff⟩ := chooseVictim_spec s rid hlow
    have hvs : victim ∈ s.servedQ := List.mem_of_mem_filter hmem
    have hne : ¬ s.servedQ = [] := by
      intro hc
      rw [hc] at hvs
      cases hvs
    have hkey : powerOn s rid temp mode =
        admitServing (demoteVictim s victim) rid temp mode "PRIORITY_REPLACE" := by
      unfold powerOn
      rw [if_neg hfull, if_pos ⟨hne, hlow⟩, hv]
    have hvrid : ¬ victim = rid := fun hc => hrid (hc ▸ hvs)
    have hlenq : (demoteVictim s victim).servedQ.length < (demoteVictim s victim).servedCap := by
      rw [demoteVictim_servedQ, demoteVictim_servedCap, length_servedPop_of_mem s victim hvs]
      have hpos : 0 < s.servedQ.length := List.length_pos.mpr hne
      omega
    have hridq : rid ∉ (demoteVictim s victim).servedQ := by
      rw [demoteVictim_servedQ]
      rw [mem_servedPop s victim rid hnodup]
      intro hc
      exact hrid hc.1
    refine ⟨victim, hv, hmem, huniq, hsame, hdiff,
      (by rw [hkey]; exact (admitServing_snd _ _ _ _ _).1), ?_, ?_, ?_⟩
    · rw [hkey, admitServing_servedQ, mem_servedPush]
      exact Or.inr ⟨rfl, hridq, hlenq⟩
    · rw [hkey, admitServing_servedQ, mem_servedPush]
      rintro (hc | ⟨hc, -⟩)
      · rw [demoteVictim_servedQ, mem_servedPop s victim victim hnodup] at hc
        exact hc.2 rfl
      · exact hvrid hc
    · rw [hkey]
      rw [admitServing_getRoom_ne _ rid victim _ _ _ hvrid]
      obtain ⟨rv, hfindv⟩ := Option.isSome_iff_exists.mp (hex victim hvs)
      rw [demoteVictim_victim_state s victim rv hfindv]

/-- A full one-slot serving queue holding room 1 at low fan; rooms 2 and
3 are off at the default medium fan. -/
def c2base : Sched :=
  (adjustWindSpeed (powerOn (mkSystem 3 1 2 120) 1 30 .cool).1 1 .low).1

/-- Witness for C2 at `c2base` with requester room 2 (medium > low). -/
theorem C2_power_on_preemption_rules_witness :
    (¬ c2base.servedQ.length < c2base.servedCap) ∧
    c2base.servedQ.Nodup ∧ 2 ∉ c2base.servedQ ∧
    ((lowerRooms c2base 2 = [] →
      (powerOn c2base 2 28 .cool).2.state = "waiting" ∧
      (powerOn c2base 2 28 .cool).1.servedQ = c2base.servedQ ∧
      (2 ∉ c2base.waitingQ →
        (c2base.waitingCap = -1 ∨ (c2base.waitingQ.length : ℤ) < c2base.waitingCap) →
        2 ∈ (powerOn c2base 2 28 .cool).1.waitingQ)) ∧
    (¬ lowerRooms c2base 2 = [] →
      ∃ victim, chooseVictim c2base 2 = some victim ∧
        victim ∈ lowerRooms c2base 2 ∧
        (∀ x, lowerRooms c2base 2 = [x] → victim = x) ∧
        ((((lowerRooms c2base 2).map (speedVal c2base)).dedup).length = 1 →
          ∀ y ∈ lowerRooms c2base 2,
            timerGet c2base.serviceTimer y ≤ timerGet c2base.serviceTimer victim) ∧
        (¬ (((lowerRooms c2base 2).map (speedVal c2base)).dedup).length = 1 →
          ∀ y ∈ lowerRooms c2base 2, speedVal c2base victim ≤ speedVal c2base y) ∧
        (powerOn c2base 2 28 .cool).2.state = "serving" ∧
        2 ∈ (powerOn c2base 2 28 .cool).1.servedQ ∧
        victim ∉ (powerOn c2base 2 28 .cool).1.servedQ ∧
        (getRoom (powerOn c2base 2 28 .cool).1 victim).state = .waiting)) :=
  ⟨by decide, by decide, by decide,
   C2_power_on_preemption_rules c2base 2 28 .cool (by decide) (by decide)
     (by decide) (by decide) (by decide)⟩


/-- Reading a removed dict at a different key sees the original dict. -/
lemma assocGet?_assocRemove_ne {α : Type} (l : List (Nat × α)) (k k' : Nat)
    (h : ¬ k = k') : assocGet? (assocRemove l k') k = assocGet? l k := by
  unfold assocGet? assocRemove
  induction l with
  | nil => rfl
  | cons p rest ih =>
    rw [List.filter_cons]
    by_cases hp : p.1 = k'
    · have hpk : ¬ p.1 = k := fun hc => h (by rw [← hc]; exact hp)
      rw [if_neg (by simp [hp]), List.find?_cons_of_neg _ (by simp [hpk])]
      exact ih
    · by_cases hpk : p.1 = k
      · rw [if_pos (by simp [hp]), List.find?_cons_of_pos _ (by simp [hpk]),
            List.find?_cons_of_pos _ (by simp [hpk])]
      · rw [if_pos (by simp [hp]), List.find?_cons_of_neg _ (by simp [hpk]),
            List.find?_cons_of_neg _ (by simp [hpk])]
        exact ih

/-- Timer read after deleting a different room's entry. -/
lemma timerGet_assocRemove_ne (l : List (Nat × Nat)) (k k' : Nat)
    (h : ¬ k = k') : timerGet (assocRemove l k') k = timerGet l k := by
  unfold timerGet
  rw [assocGet?_assocRemove_ne l k k' h]

/-- With the victim outside the waiting queue and a free waiting slot,
`rotateVictimIn` takes none of its defensive branches. -/
lemma rotateVictimIn_eq (s : Sched) (victim selected : Nat)
    (hvw : victim ∉ s.waitingQ)
    (hcapW : s.waitingCap = -1 ∨ (s.waitingQ.length : ℤ) < s.waitingCap) :
    rotateVictimIn s victim selected =
      (let s1 := servedPop s victim
       let s4 := waitingPush s1 victim
       let s5 := setRoomState s4 victim .waiting
       let s6 := { s5 with serviceTimer := assocRemove s5.serviceTimer victim }
       let s7 := { s6 with waitTimer := assocSet s6.waitTimer victim 0 }
       let s9 := servedPush s7 selected
       let s10 := waitingPop s9 selected
       let s11 := setRoomState s10 selected .serving
       let s12 := { s11 with serviceTimer := assocSet s11.serviceTimer selected 0 }
       { s12 with waitTimer := assocRemove s12.waitTimer selected }) := by
  unfold rotateVictimIn
  dsimp only
  split
  · next hc =>
    exfalso
    simp only [servedPop_waitingCap, servedPop_waitingQ] at hc
    rcases hc with ⟨hc1, hc2, -⟩
    rcases hcapW with h | h
    · exact hc1 h
    · omega
  · next =>
    split
    · next hc =>
      exfalso
      simp only [servedPop_waitingQ] at hc
      exact hvw hc
    · next =>
      split
      · next =>
        split
        · next hc =>
          exfalso
          simp only [setRoomState, setRoom_waitTimer, assocGet?_assocSet_self] at hc
          simp at hc
        · next => rfl
      · next hc =>
        exfalso
        simp only [servedPop_waitingCap, servedPop_waitingQ] at hc
        exact hc hcapW

/-- Effect of a successful rotation: one victim leaves the serving queue
for the waiting queue with a zeroed wait timer, and the selected waiting
room takes its slot. -/
lemma rotateVictimIn_facts_slot (s : Sched) (victim selected : Nat)
    (hv : victim ∈ s.servedQ) (hw : selected ∈ s.waitingQ)
    (hnodupS : s.servedQ.Nodup)
    (hdisj : ∀ x ∈ s.servedQ, x ∉ s.waitingQ)
    (hlenS : s.servedQ.length ≤ s.servedCap)
    (hcapW : s.waitingCap = -1 ∨ (s.waitingQ.length : ℤ) < s.waitingCap) :
    (∀ y, y ∈ (rotateVictimIn s victim selected).servedQ ↔
      (y ∈ s.servedQ ∧ ¬ y = victim) ∨ y = selected) ∧
    timerGet (rotateVictimIn s victim selected).waitTimer victim = 0 ∧
    victim ∈ (rotateVictimIn s victim selected).waitingQ := by
  have hvw : victim ∉ s.waitingQ := hdisj victim hv
  have hne : ¬ victim = selected := fun he => hvw (he ▸ hw)
  have hsel : selected ∉ s.servedQ := fun hc => hdisj selected hc hw
  have hlen1 : (servedPop s victim).servedQ.length < s.servedCap := by
    rw [length_servedPop_of_mem s victim hv]
    have := List.length_pos_of_mem hv
    omega
  rw [rotateVictimIn_eq s victim selected hvw hcapW]
  dsimp only
  refine ⟨?_, ?_, ?_⟩
  · intro y
    simp only [setRoomState, setRoom_servedQ, waitingPop_servedQ]
    rw [mem_servedPush]
    simp only [setRoomState, setRoom_servedQ, setRoom_servedCap,
      waitingPush_servedQ, waitingPush_servedCap, servedPop_servedCap]
    rw [mem_servedPop s victim y hnodupS, mem_servedPop s victim selected hnodupS]
    constructor
    · rintro (hy | ⟨rfl, -, -⟩)
      · exact Or.inl hy
      · exact Or.inr rfl
    · rintro (hy | rfl)
      · exact Or.inl hy
      · exact Or.inr ⟨rfl, fun hc => hsel hc.1, hlen1⟩
  · simp only [setRoomState, setRoom_waitTimer, waitingPop_waitTimer,
      servedPush_waitTimer, waitingPush_waitTimer, servedPop_waitTimer]
    rw [timerGet_assocRemove_ne _ _ _ hne, timerGet_assocSet_self]
  · simp only [setRoomState, setRoom_waitingQ, waitingPop_waitingQ,
      servedPush_waitingQ]
    rw [List.mem_erase_of_ne hne]
    exact mem_waitingPush_self (servedPop s victim) victim
      (by rw [servedPop_waitingQ]; exact hvw)
      (by rw [servedPop_waitingCap, servedPop_waitingQ]; exact hcapW)

/-- Each pass of the `for speed in served_speeds` loop either leaves the
scheduler unchanged or performs exactly one rotation whose victim and
selected room satisfy the selection rules. -/
lemma tssLoop_cases (s : Sched) (speeds : List FanSpeed) :
    tssLoop s speeds = s ∨
    ∃ victim selected,
      victim ∈ s.servedQ ∧ selected ∈ s.waitingQ ∧
      (getRoom s selected).fan_speed = (getRoom s victim).fan_speed ∧
      s.timeSlice ≤ timerGet s.waitTimer selected ∧
      (∀ y ∈ s.servedQ, (getRoom s y).fan_speed = (getRoom s victim).fan_speed →
        timerGet s.serviceTimer y ≤ timerGet s.serviceTimer victim) ∧
      (∀ y ∈ s.waitingQ, (getRoom s y).fan_speed = (getRoom s victim).fan_speed →
        s.timeSlice ≤ timerGet s.waitTimer y →
        timerGet s.waitTimer y ≤ timerGet s.waitTimer selected) ∧
      tssLoop s speeds = rotateVictimIn s victim selected := by
  induction speeds with
  | nil => exact Or.inl rfl
  | cons sp rest ih =>
    unfold tssLoop
    dsimp only
    by_cases hserved : s.servedQ.filter (fun rid => (getRoom s rid).fan_speed = sp) = []
    · rw [if_pos hserved]; exact ih
    · rw [if_neg hserved]
      by_cases hwaiting : s.waitingQ.filter (fun rid => (getRoom s rid).fan_speed = sp) = []
      · rw [if_pos hwaiting]; exact ih
      · rw [if_neg hwaiting]
        rcases hmax : pyMax (tssWaitKey s)
            (s.waitingQ.filter fun rid => (getRoom s rid).fan_speed = sp) with _ | selected
        · exact ih
        · dsimp only
          by_cases hts : s.timeSlice ≤ timerGet s.waitTimer selected
          · rw [if_pos hts]
            rcases hvic : pyMax (fun rid => ((timerGet s.serviceTimer rid : ℤ), 0))
                (s.servedQ.filter fun rid => (getRoom s rid).fan_speed = sp) with _ | victim
            · exact ih
            · dsimp only
              right
              have hvmem := List.mem_filter.mp (pyMax_mem _ _ _ hvic)
              have hsmem := List.mem_filter.mp (pyMax_mem _ _ _ hmax)
              have hvsp : (getRoom s victim).fan_speed = sp := of_decide_eq_true hvmem.2
              have hssp : (getRoom s selected).fan_speed = sp := of_decide_eq_true hsmem.2
              refine ⟨victim, selected, hvmem.1, hsmem.1, by rw [hvsp, hssp], hts,
                ?_, ?_, rfl⟩
              · intro y hy hfy
                have hyf : y ∈ s.servedQ.filter
                    (fun rid => (getRoom s rid).fan_speed = sp) :=
                  List.mem_filter.mpr ⟨hy, decide_eq_true (by rw [hfy, hvsp])⟩
                have hge := pyMax_ge _ _ _ hvic y hyf
                unfold ltLex at hge
                dsimp only at hge
                omega
              · intro y hy hfy hty
                have hyf : y ∈ s.waitingQ.filter
                    (fun rid => (getRoom s rid).fan_speed = sp) :=
                  List.mem_filter.mpr ⟨hy, decide_eq_true (by rw [hfy, hvsp])⟩
                have hge := pyMax_ge _ _ _ hmax y hyf
                unfold tssWaitKey ltLex at hge
                rw [if_pos hts, if_pos hty] at hge
                dsimp only at hge
                omega
          · rw [if_neg hts]; exact ih


/-- With the victim outside a full bounded waiting queue,
`rotateVictimIn` first evicts the lowest-priority waiting room (`lowest`,
the `pyMin` of the waiting queue) to PAUSED, then proceeds with the
normal demote-and-admit sequence. -/
lemma rotateVictimIn_eq_full (s : Sched) (victim selected lowest : Nat)
    (hvw : victim ∉ s.waitingQ)
    (hfull : ¬ s.waitingCap = -1)
    (hge : s.waitingCap ≤ (s.waitingQ.length : ℤ))
    (hlen : ((s.waitingQ.erase lowest).length : ℤ) < s.waitingCap)
    (hmin : pyMin (fun rid => ((speedVal (servedPop s victim) rid : ℤ),
        (timerGet (servedPop s victim).waitTimer rid : ℤ)))
        (servedPop s victim).waitingQ = some lowest) :
    rotateVictimIn s victim selected =
      (let s1 := servedPop s victim
       let e1 := waitingPop s1 lowest
       let e2 := setRoomState e1 lowest .paused
       let e3 := { e2 with waitTimer := assocRemove e2.waitTimer lowest }
       let s4 := waitingPush e3 victim
       let s5 := setRoomState s4 victim .waiting
       let s6 := { s5 with serviceTimer := assocRemove s5.serviceTimer victim }
       let s7 := { s6 with waitTimer := assocSet s6.waitTimer victim 0 }
       let s9 := servedPush s7 selected
       let s10 := waitingPop s9 selected
       let s11 := setRoomState s10 selected .serving
       let s12 := { s11 with serviceTimer := assocSet s11.serviceTimer selected 0 }
       { s12 with waitTimer := assocRemove s12.waitTimer selected }) := by
  unfold rotateVictimIn
  dsimp only
  split
  · next =>
    rw [hmin]
    dsimp only
    split
    · next hc =>
      exfalso
      simp only [setRoomState, setRoom_waitingQ, waitingPop_waitingQ,
        servedPop_waitingQ] at hc
      exact hvw (List.mem_of_mem_erase hc)
    · next =>
      split
      · next =>
        split
        · next hc =>
          exfalso
          simp only [setRoomState, setRoom_waitTimer, assocGet?_assocSet_self] at hc
          simp at hc
        · next => rfl
      · next hc =>
        exfalso
        apply hc
        right
        simp only [setRoomState, setRoom_waitingCap, setRoom_waitingQ,
          waitingPop_waitingCap, waitingPop_waitingQ, servedPop_waitingCap,
          servedPop_waitingQ]
        exact hlen
  · next hc =>
    exfalso
    apply hc
    refine ⟨?_, ?_, ?_⟩
    · rw [servedPop_waitingCap]
      exact hfull
    · rw [servedPop_waitingCap, servedPop_waitingQ]
      exact hge
    · rw [servedPop_waitingQ]
      exact hvw

/-- `rotateVictimIn_facts_slot` for a full bounded waiting queue: the
eviction path still swaps exactly victim for selected and zeroes the
victim's wait timer. -/
lemma rotateVictimIn_facts_full (s : Sched) (victim selected : Nat)
    (hv : victim ∈ s.servedQ) (hw : selected ∈ s.waitingQ)
    (hnodupS : s.servedQ.Nodup)
    (hdisj : ∀ x ∈ s.servedQ, x ∉ s.waitingQ)
    (hlenS : s.servedQ.length ≤ s.servedCap)
    (hfull : ¬ s.waitingCap = -1)
    (hge : s.waitingCap ≤ (s.waitingQ.length : ℤ))
    (hllw : (s.waitingQ.length : ℤ) ≤ s.waitingCap) :
    (∀ y, y ∈ (rotateVictimIn s victim selected).servedQ ↔
      (y ∈ s.servedQ ∧ ¬ y = victim) ∨ y = selected) ∧
    timerGet (rotateVictimIn s victim selected).waitTimer victim = 0 ∧
    victim ∈ (rotateVictimIn s victim selected).waitingQ := by
  have hvw : victim ∉ s.waitingQ := hdisj victim hv
  have hne : ¬ victim = selected := fun he => hvw (he ▸ hw)
  have hsel : selected ∉ s.servedQ := fun hc => hdisj selected hc hw
  have hlen1 : (servedPop s victim).servedQ.length < s.servedCap := by
    rw [length_servedPop_of_mem s victim hv]
    have := List.length_pos_of_mem hv
    omega
  have hwne : ¬ (servedPop s victim).waitingQ = [] := by
    rw [servedPop_waitingQ]
    intro hc
    rw [hc] at hw
    cases hw
  rcases hmin : pyMin (fun rid => ((speedVal (servedPop s victim) rid : ℤ),
      (timerGet (servedPop s victim).waitTimer rid : ℤ)))
      (servedPop s victim).waitingQ with _ | lowest
  · exact absurd (hmin ▸ pyMin_isSome _ _ hwne) (by simp)
  · have hlow : lowest ∈ s.waitingQ := by
      have h := pyMin_mem _ _ _ hmin
      rwa [servedPop_waitingQ] at h
    have hlen : ((s.waitingQ.erase lowest).length : ℤ) < s.waitingCap := by
      rw [List.length_erase_of_mem hlow]
      have hpos := List.length_pos_of_mem hlow
      omega
    rw [rotateVictimIn_eq_full s victim selected lowest hvw hfull hge hlen hmin]
    dsimp only
    refine ⟨?_, ?_, ?_⟩
    · intro y
      simp only [setRoomState, setRoom_servedQ, waitingPop_servedQ]
      rw [mem_servedPush]
      simp only [setRoomState, setRoom_servedQ, setRoom_servedCap,
        waitingPush_servedQ, waitingPush_servedCap, waitingPop_servedQ,
        waitingPop_servedCap, servedPop_servedCap]
      rw [mem_servedPop s victim y hnodupS, mem_servedPop s victim selected hnodupS]
      constructor
      · rintro (hy | ⟨rfl, -, -⟩)
        · exact Or.inl hy
        · exact Or.inr rfl
      · rintro (hy | rfl)
        · exact Or.inl hy
        · exact Or.inr ⟨rfl, fun hc => hsel hc.1, hlen1⟩
    · simp only [setRoomState, setRoom_waitTimer, waitingPop_waitTimer,
        servedPush_waitTimer, waitingPush_waitTimer, servedPop_waitTimer]
      rw [timerGet_assocRemove_ne _ _ _ hne, timerGet_assocSet_self]
    · simp only [setRoomState, setRoom_waitingQ, waitingPop_waitingQ,
        servedPush_waitingQ]
      rw [List.mem_erase_of_ne hne]
      apply mem_waitingPush_self
      · simp only [setRoomState, setRoom_waitingQ, waitingPop_waitingQ,
          servedPop_waitingQ]
        exact fun hc => hvw (List.mem_of_mem_erase hc)
      · simp only [setRoomState, setRoom_waitingCap, setRoom_waitingQ,
          waitingPop_waitingCap, waitingPop_waitingQ, servedPop_waitingCap,
          servedPop_waitingQ]
        exact Or.inr hlen

/-- Effect of a rotation on any state whose waiting queue respects its
capacity (full allowed): one victim leaves the serving queue for the
waiting queue with a zeroed wait timer, and the selected waiting room
takes its slot. -/
lemma rotateVictimIn_facts (s : Sched) (victim selected : Nat)
    (hv : victim ∈ s.servedQ) (hw : selected ∈ s.waitingQ)
    (hnodupS : s.servedQ.Nodup)
    (hdisj : ∀ x ∈ s.servedQ, x ∉ s.waitingQ)
    (hlenS : s.servedQ.length ≤ s.servedCap)
    (hlenW : s.waitingCap = -1 ∨ (s.waitingQ.length : ℤ) ≤ s.waitingCap) :
    (∀ y, y ∈ (rotateVictimIn s victim selected).servedQ ↔
      (y ∈ s.servedQ ∧ ¬ y = victim) ∨ y = selected) ∧
    timerGet (rotateVictimIn s victim selected).waitTimer victim = 0 ∧
    victim ∈ (rotateVictimIn s victim selected).waitingQ := by
  by_cases hslot : s.waitingCap = -1 ∨ (s.waitingQ.length : ℤ) < s.waitingCap
  · exact rotateVictimIn_facts_slot s victim selected hv hw hnodupS hdisj hlenS hslot
  · have hfull : ¬ s.waitingCap = -1 := fun hc => hslot (Or.inl hc)
    have hge : s.waitingCap ≤ (s.waitingQ.length : ℤ) := by
      by_contra hc
      exact hslot (Or.inr (by omega))
    have hllw : (s.waitingQ.length : ℤ) ≤ s.waitingCap := by
      rcases hlenW with h | h
      · exact absurd h hfull
      · exact h
    exact rotateVictimIn_facts_full s victim selected hv hw hnodupS hdisj hlenS
      hfull hge hllw

/-- C5: time-slice rotation happens only when the serving queue is full
and the waiting queue non-empty; a waiting room is promoted only if its
wait time is at least the configured time slice and some serving room has
the same fan speed (and it has the longest wait among such candidates);
the evicted victim is the serving room at that speed with the longest
time-in-service, it moves to the waiting queue with its wait timer reset
to zero; and at most one swap is performed per call.  The hypotheses are
the queue invariants only: a duplicate-free serving queue disjoint from
the waiting queue, with both queues within their capacities (a full
waiting queue is allowed; the rotation then evicts its lowest-priority
member to PAUSED first). -/
theorem C5_time_slice_rules (s : Sched)
    (hnodupS : s.servedQ.Nodup)
    (hdisj : ∀ x ∈ s.servedQ, x ∉ s.waitingQ)
    (hlenS : s.servedQ.length ≤ s.servedCap)
    (hlenW : s.waitingCap = -1 ∨ (s.waitingQ.length : ℤ) ≤ s.waitingCap) :
    (s.waitingQ = [] ∨ s.servedQ.length < s.servedCap → timeSliceSchedule s = s) ∧
    (timeSliceSchedule s = s ∨
      ∃ victim selected,
        victim ∈ s.servedQ ∧ selected ∈ s.waitingQ ∧
        (getRoom s selected).fan_speed = (getRoom s victim).fan_speed ∧
        s.timeSlice ≤ timerGet s.waitTimer selected ∧
        (∀ y ∈ s.servedQ, (getRoom s y).fan_speed = (getRoom s victim).fan_speed →
          timerGet s.serviceTimer y ≤ timerGet s.serviceTimer victim) ∧
        (∀ y ∈ s.waitingQ, (getRoom s y).fan_speed = (getRoom s victim).fan_speed →
          s.timeSlice ≤ timerGet s.waitTimer y →
          timerGet s.waitTimer y ≤ timerGet s.waitTimer selected) ∧
        (∀ y, y ∈ (timeSliceSchedule s).servedQ ↔
          (y ∈ s.servedQ ∧ ¬ y = victim) ∨ y = selected) ∧
        timerGet (timeSliceSchedule s).waitTimer victim = 0 ∧
        victim ∈ (timeSliceSchedule s).waitingQ) := by
  constructor
  · intro hguard
    unfold timeSliceSchedule
    rw [if_pos hguard]
  · by_cases hguard : s.waitingQ = [] ∨ s.servedQ.length < s.servedCap
    · left
      unfold timeSliceSchedule
      rw [if_pos hguard]
    · have hts : timeSliceSchedule s
          = tssLoop s ((s.servedQ.map fun rid => (getRoom s rid).fan_speed).dedup) := by
        unfold timeSliceSchedule
        rw [if_neg hguard]
      rcases tssLoop_cases s ((s.servedQ.map fun rid => (getRoom s rid).fan_speed).dedup)
        with h | ⟨victim, selected, h1, h2, h3, h4, h5, h6, heq⟩
      · left; rw [hts]; exact h
      · right
        have hfacts := rotateVictimIn_facts s victim selected h1 h2 hnodupS hdisj
          hlenS hlenW
        rw [hts, heq]
        exact ⟨victim, selected, h1, h2, h3, h4, h5, h6,
          hfacts.1, hfacts.2.1, hfacts.2.2⟩

/-- A scheduler with a full one-slot serving queue and a full one-slot
bounded waiting queue: room 1 serving, room 2 waiting at the same fan
speed with its wait timer already past the time slice. -/
def c5w : Sched :=
  { (powerOn (powerOn (mkSystem 2 1 1 5) 1 30 .cool).1 2 28 .cool).1 with
      waitTimer := [(2, 10)] }

/-- Witness for C5 at `c5w`: both queues are at capacity (the waiting
queue is full, so the rotation takes the eviction path), the serving
queue is duplicate-free and disjoint from the waiting queue. -/
theorem C5_time_slice_rules_witness :
    c5w.servedQ.Nodup ∧ (∀ x ∈ c5w.servedQ, x ∉ c5w.waitingQ) ∧
    c5w.servedQ.length ≤ c5w.servedCap ∧
    (c5w.waitingCap = -1 ∨ (c5w.waitingQ.length : ℤ) ≤ c5w.waitingCap) ∧
    ¬ (c5w.waitingCap = -1 ∨ (c5w.waitingQ.length : ℤ) < c5w.waitingCap) ∧
    ((c5w.waitingQ = [] ∨ c5w.servedQ.length < c5w.servedCap →
        timeSliceSchedule c5w = c5w) ∧
     (timeSliceSchedule c5w = c5w ∨
      ∃ victim selected,
        victim ∈ c5w.servedQ ∧ selected ∈ c5w.waitingQ ∧
        (getRoom c5w selected).fan_speed = (getRoom c5w victim).fan_speed ∧
        c5w.timeSlice ≤ timerGet c5w.waitTimer selected ∧
        (∀ y ∈ c5w.servedQ,
          (getRoom c5w y).fan_speed = (getRoom c5w victim).fan_speed →
          timerGet c5w.serviceTimer y ≤ timerGet c5w.serviceTimer victim) ∧
        (∀ y ∈ c5w.waitingQ,
          (getRoom c5w y).fan_speed = (getRoom c5w victim).fan_speed →
          c5w.timeSlice ≤ timerGet c5w.waitTimer y →
          timerGet c5w.waitTimer y ≤ timerGet c5w.waitTimer selected) ∧
        (∀ y, y ∈ (timeSliceSchedule c5w).servedQ ↔
          (y ∈ c5w.servedQ ∧ ¬ y = victim) ∨ y = selected) ∧
        timerGet (timeSliceSchedule c5w).waitTimer victim = 0 ∧
        victim ∈ (timeSliceSchedule c5w).waitingQ)) :=
  ⟨by decide, by decide, by decide, by decide, by decide,
   C5_time_slice_rules c5w (by decide) (by decide) (by decide) (by decide)⟩

end HotelAC
